import Mathlib

/-!
Verification development for the `bittensor-climate-oracle` repository.

The Python sources (`src/oracle/ai.py`, `src/oracle/oracle.py`,
`src/oracle/routes.py`) are shallowly embedded below.  Numeric values are
modelled as exact rationals (`ℚ`); Python's `round(x, n)` (round half to
even) is modelled by `pround`; the pseudo-random generator
`random.Random(seed)` is modelled by an abstract environment `Env` that
maps a seed and a call index to the value produced by the k-th primitive
draw of the generator with that seed, so every function of the engine is a
pure function of its inputs and of `Env`.  Python's stable
`list.sort(key=..., reverse=True)` is modelled by a stable insertion sort
`sortBy`.
-/

/-- Python `round(q, n)` rounds half to even.  Integer-valued result of
rounding a rational to the nearest integer, ties to even. -/
def roundHalfEven (q : ℚ) : ℤ :=
  if q - ⌊q⌋ < 1/2 then ⌊q⌋
  else if 1/2 < q - ⌊q⌋ then ⌊q⌋ + 1
  else if ⌊q⌋ % 2 = 0 then ⌊q⌋ else ⌊q⌋ + 1

/-- Model of Python `round(q, n)` on exact rationals. -/
def pround (n : ℕ) (q : ℚ) : ℚ := (roundHalfEven (q * 10 ^ n) : ℚ) / 10 ^ n

theorem roundHalfEven_bounds (q : ℚ) :
    q - 1/2 ≤ (roundHalfEven q : ℚ) ∧ (roundHalfEven q : ℚ) ≤ q + 1/2 := by
  have h1 := Int.floor_le q
  have h2 := Int.lt_floor_add_one q
  unfold roundHalfEven
  split_ifs <;> constructor <;> push_cast <;> linarith

theorem roundHalfEven_mono {x y : ℚ} (h : x ≤ y) :
    roundHalfEven x ≤ roundHalfEven y := by
  have hfl : ⌊x⌋ ≤ ⌊y⌋ := Int.floor_mono h
  have hx1 := Int.floor_le x
  have hx2 := Int.lt_floor_add_one x
  have hy1 := Int.floor_le y
  have hy2 := Int.lt_floor_add_one y
  unfold roundHalfEven
  rcases lt_or_eq_of_le hfl with hlt | heq
  · split_ifs <;> omega
  · rw [← heq] at hy1 hy2 ⊢
    have hxy : x - (⌊x⌋ : ℚ) ≤ y - (⌊x⌋ : ℚ) := by linarith
    split_ifs <;> first | omega | linarith

theorem roundHalfEven_intCast (k : ℤ) : roundHalfEven (k : ℚ) = k := by
  unfold roundHalfEven
  rw [Int.floor_intCast]
  have h0 : (k : ℚ) - k < 1/2 := by norm_num
  simp [h0]

theorem pround_mono (n : ℕ) {x y : ℚ} (h : x ≤ y) : pround n x ≤ pround n y := by
  unfold pround
  have h10 : (0 : ℚ) < 10 ^ n := by positivity
  gcongr
  exact_mod_cast roundHalfEven_mono (mul_le_mul_of_nonneg_right h (le_of_lt h10))

theorem pround_grid (n : ℕ) (k : ℤ) :
    pround n ((k : ℚ) / 10 ^ n) = (k : ℚ) / 10 ^ n := by
  unfold pround
  have h10 : (10 : ℚ) ^ n ≠ 0 := by positivity
  rw [div_mul_cancel₀ _ h10, roundHalfEven_intCast]

theorem pround_err (n : ℕ) (q : ℚ) : |pround n q - q| ≤ 1 / (2 * 10 ^ n) := by
  obtain ⟨hb1, hb2⟩ := roundHalfEven_bounds (q * 10 ^ n)
  have h10 : (0 : ℚ) < 10 ^ n := by positivity
  have e : pround n q - q = ((roundHalfEven (q * 10 ^ n) : ℚ) - q * 10 ^ n) / 10 ^ n := by
    unfold pround
    field_simp
    ring
  rw [e, abs_div, abs_of_pos h10]
  rw [div_le_div_iff₀ h10 (by positivity)]
  have hnum : |(roundHalfEven (q * 10 ^ n) : ℚ) - q * 10 ^ n| ≤ 1/2 := by
    rw [abs_le]
    constructor <;> linarith
  calc |(roundHalfEven (q * 10 ^ n) : ℚ) - q * 10 ^ n| * (2 * 10 ^ n)
      ≤ (1/2) * (2 * 10 ^ n) := by
        apply mul_le_mul_of_nonneg_right hnum
        positivity
    _ = 1 * 10 ^ n := by ring

theorem pround_le_grid (n : ℕ) (k : ℤ) {x : ℚ} (h : x ≤ (k : ℚ) / 10 ^ n) :
    pround n x ≤ (k : ℚ) / 10 ^ n := by
  calc pround n x ≤ pround n ((k : ℚ) / 10 ^ n) := pround_mono n h
    _ = (k : ℚ) / 10 ^ n := pround_grid n k

theorem grid_le_pround (n : ℕ) (k : ℤ) {x : ℚ} (h : (k : ℚ) / 10 ^ n ≤ x) :
    (k : ℚ) / 10 ^ n ≤ pround n x := by
  calc (k : ℚ) / 10 ^ n = pround n ((k : ℚ) / 10 ^ n) := (pround_grid n k).symm
    _ ≤ pround n x := pround_mono n h

theorem pround_nonneg (n : ℕ) {x : ℚ} (h : 0 ≤ x) : 0 ≤ pround n x := by
  have := grid_le_pround n 0 (x := x) (by simpa using h)
  simpa using this

/-- Stable insertion of `a` into `l`: `a` is placed before the first
element `b` with `le a b`. -/
def insertBy {α : Type} (le : α → α → Bool) (a : α) : List α → List α
  | [] => [a]
  | b :: l => if le a b then a :: b :: l else b :: insertBy le a l

/-- Stable sort; with `le a b := key b ≤ key a` this models Python's
`list.sort(key=key, reverse=True)` (stable, descending). -/
def sortBy {α : Type} (le : α → α → Bool) : List α → List α
  | [] => []
  | a :: l => insertBy le a (sortBy le l)

theorem insertBy_perm {α : Type} (le : α → α → Bool) (a : α) (l : List α) :
    List.Perm (insertBy le a l) (a :: l) := by
  induction l with
  | nil => exact List.Perm.refl _
  | cons b l ih =>
    unfold insertBy
    split
    · exact List.Perm.refl _
    · exact ((List.perm_cons b).mpr ih).trans (List.Perm.swap a b l)

theorem sortBy_perm {α : Type} (le : α → α → Bool) (l : List α) :
    List.Perm (sortBy le l) l := by
  induction l with
  | nil => exact List.Perm.refl _
  | cons a l ih =>
    unfold sortBy
    exact (insertBy_perm le a (sortBy le l)).trans ((List.perm_cons a).mpr ih)

/-!
## Abstract randomness environment

`random.Random(seed)` is modelled as a pure stream: `Env.u s k` is the
unit-interval source of the k-th primitive draw of the generator seeded
`s` (so `rng.uniform(a, b)` at call index k is `a + (b - a) * u s k` and
`rng.random()` is `u s k`), `Env.g s k` is the standard-normal source of a
`rng.gauss(0, σ)` call (`σ * g s k`), and `Env.n s k` feeds
`rng.randint(a, b)` as `a + n s k % (b - a + 1)`.  `Env.md5hex` models
`hashlib.md5(·).hexdigest()` and `Env.pyhash` models Python's builtin
`hash(str(·))` (nonnegative representative).
-/

structure Env where
  u : ℤ → ℕ → ℚ
  g : ℤ → ℕ → ℚ
  n : ℤ → ℕ → ℕ
  md5hex : String → String
  pyhash : String → ℕ

/-- Concrete environment used to evaluate the engine on explicit inputs:
every unit draw is 0, every gaussian draw is 0, the `randint` source is
the seed itself (so outputs depend visibly on the seed), hashes are
constant. -/
def zeroEnv : Env :=
  ⟨fun _ _ => 0, fun _ _ => 0, fun s _ => s.natAbs, fun _ => "0123456789abcdef0123456789abcdef",
   fun _ => 0⟩

/-- The unit-interval draws really lie in `[0, 1)` (true of Python's
`random.random()`). -/
def Env.unitDraws (e : Env) : Prop := ∀ s k, 0 ≤ e.u s k ∧ e.u s k < 1

theorem zeroEnv_unitDraws : Env.unitDraws zeroEnv := by
  intro s k
  constructor <;> norm_num [zeroEnv]

/-! ## Data model (dict shapes used by `src/oracle/ai.py`) -/

structure MinerSpec where
  name : String
  hotkey : String
  tier : String
  specialty : String
deriving DecidableEq, Repr

structure ValidatorSpec where
  name : String
  hotkey : String
  specialty : String
deriving DecidableEq, Repr

structure SpecialistPool where
  miners : List MinerSpec
  validators : List ValidatorSpec
  check_labels : List String
  analyses : List String
deriving DecidableEq, Repr

structure Baseline where
  base_temp : ℚ
  base_precip_mm : ℚ
  base_humidity : ℚ
  base_wind_kmh : ℚ
  risk_baseline : ℚ
deriving DecidableEq, Repr

structure SeasonImpact where
  temp_delta : ℚ
  precip_mult : ℚ
  risk_increase : ℚ
deriving DecidableEq, Repr

structure EnsoImpact where
  precip_mult : ℚ
  risk_increase : ℚ
deriving DecidableEq, Repr

structure Conditions where
  season : Option String := none
  enso_state : Option String := none
  mjo_phase : Option String := none
  sst_anomaly : Option String := none
  iod_state : Option String := none
deriving DecidableEq, Repr

structure Synapse where
  task_type : Option String := none
  location : Option String := none
  target_date : Option String := none
  forecast_horizon_days : Option ℕ := none
  variables' : List String := []
  conditions : Option Conditions := none
  random_seed : Option ℤ := none
deriving DecidableEq, Repr

structure GroundTruth where
  actual_temp_celsius : Option ℚ := none
  actual_precip_mm : Option ℚ := none
  actual_risk_index : Option ℚ := none
  had_extreme_event : Option Bool := none
  extreme_event_type : Option String := none
deriving DecidableEq, Repr

structure Scenario where
  title : String
  subtitle : String
  task_type : String
  synapse : Synapse
  ground_truth : GroundTruth
deriving DecidableEq, Repr

/-! ## Static tables (`SPECIALISTS`, `DEMO_SCENARIOS`, `CLIMATE_BASELINES`,
`SEASON_IMPACTS`, `ENSO_IMPACTS` from `src/oracle/ai.py`) -/

def short_term_forecast_pool : SpecialistPool where
  miners :=
    [ ⟨"PanguWeather-v3", "5FPWv3kQr", "high", "Pangu-Weather Transformer (3D Earth System)"⟩,
      ⟨"GraphCast-Pro", "5FGCpT9xP", "high", "Graph Neural Network Global Weather Prediction"⟩,
      ⟨"FourCastNet-v2", "5FFCnL3mK", "mid", "Fourier Neural Operator Atmospheric Model"⟩,
      ⟨"ClimateTransformer", "5FCTrV2nR", "mid", "Vision Transformer for Regional Weather Patterns"⟩,
      ⟨"NeuralGCM-Lite", "5FNGlR4pT", "mid", "Neural General Circulation Model (Hybrid Physics-ML)"⟩,
      ⟨"WeatherBench-Basic", "5FWBb1qUm", "entry", "Persistence + Climatology Baseline Model"⟩ ]
  validators :=
    [ ⟨"NOAA-StationVerifier", "5VnS1aXp", "Cross-checks predictions against 30,000+ NOAA ISD ground stations"⟩,
      ⟨"ECMWF-EnsembleChecker", "5VeE2bYq", "Validates against ECMWF IFS 51-member ensemble spread"⟩,
      ⟨"SatelliteIR-Validator", "5VsI3cZr", "GOES-16/Himawari-9 infrared brightness temperature verification"⟩,
      ⟨"Radiosonde-Oracle", "5VrO4dAs", "Upper-air radiosonde profile accuracy validation"⟩ ]
  check_labels := ["Surface Temp Within 1.5C", "Precip Category Correct", "Wind Direction Verified"]
  analyses :=
    [ "Pangu-Weather Transformer analysis: Processed 0.25-degree global reanalysis grid (721x1440 nodes, 13 pressure levels). Attention mechanism identified strengthening monsoon trough at 850 hPa over Java Sea — historical analogs (2019, 2022 monsoon peaks) suggest sustained heavy rainfall. NOAA station JKT-47 (Kemayoran) 7-day bias correction applied: +0.3C temperature, +12mm precipitation. Model ensemble spread indicates high confidence for Days 1-3, degrading after Day 5.",
      "GraphCast GNN prediction: Message-passing over icosahedral mesh (40,962 nodes) with 6-hour autoregressive rollout to Day 7. Detected low-pressure system deepening at 6.2S, 106.8E with central pressure dropping 4 hPa/12h. Sea surface temperature anomaly (+1.2C above climatology in Java Sea) feeding enhanced convection. Precipitation forecast calibrated against GPM IMERG satellite estimates. GNN captures nonlinear moisture transport from Indian Ocean — critical for Jakarta flooding risk.",
      "FourCastNet Fourier analysis: Adaptive Fourier Neural Operator applied to ERA5 reanalysis at 0.25-degree resolution. Spectral decomposition reveals dominant wavenumber-3 pattern in tropical convection consistent with active MJO Phase 4-5. Model captures diurnal cycle of convective initiation over Java highlands (14:00-17:00 LT peak). Precipitation bias relative to CHIRPS satellite product: -8% (within acceptable range). Wind shear profile suggests organized mesoscale convective systems.",
      "ClimateTransformer regional analysis: Fine-tuned ViT on Southeast Asia domain (90E-140E, 15S-15N) with 12km effective resolution. Detected urban heat island signature over Greater Jakarta (+2.1C above rural surrounds). Boundary layer analysis from Jakarta-Cengkareng radiosonde shows deep moisture layer to 500 hPa — favorable for sustained precipitation. Model incorporates terrain-forced convergence along Java north coast.",
      "NeuralGCM hybrid prediction: Physics-constrained neural network preserving conservation laws (mass, energy, angular momentum). Dynamical core resolves Kelvin wave propagation along equatorial waveguide. Parameterized deep convection triggered when CAPE exceeds 2,500 J/kg (current estimate: 3,100 J/kg over Jakarta region). Model accounts for land-sea breeze circulation modulating afternoon rainfall peaks.",
      "WeatherBench baseline: Persistence forecast from last 48-hour observations at NOAA station ID96749 (Jakarta-Soekarno Hatta). Climatological adjustment applied from 30-year MERRA-2 reanalysis (1991-2020 February mean). Simple exponential decay weighting for ensemble mean. Limited skill beyond Day 3 due to lack of dynamical model physics." ]

def risk_index_pool : SpecialistPool where
  miners :=
    [ ⟨"HazardNet-AI", "5FHNa7kQr", "high", "Multi-hazard Deep Learning Risk Assessment"⟩,
      ⟨"StormSurge-Predictor", "5FSSp9xP", "high", "Coupled Atmosphere-Ocean Storm Surge Model"⟩,
      ⟨"FloodRisk-Ensemble", "5FFReL3mK", "mid", "Hydrological Ensemble Flood Probability Model"⟩,
      ⟨"CycloneTracker-v3", "5FCTkV2nR", "mid", "Tropical Cyclone Track & Intensity Prediction"⟩,
      ⟨"ExtremeEvent-Detector", "5FEEdR4pT", "mid", "Extreme Value Statistical Model (GEV/POT)"⟩,
      ⟨"AlertBasic-v1", "5FABb1qUm", "entry", "NWS Alert Feed Aggregator with Simple Scoring"⟩ ]
  validators :=
    [ ⟨"NHC-TrackVerifier", "5VnH1aXp", "National Hurricane Center official track/intensity verification"⟩,
      ⟨"TideGauge-Oracle", "5VtG2bYq", "NOAA tide gauge network surge height cross-validation"⟩,
      ⟨"DamageAssess-Checker", "5VdA3cZr", "FEMA damage assessment and insurance loss correlation"⟩ ]
  check_labels := ["Hurricane Category Correct", "Storm Surge Within 0.5m", "Landfall Timing Verified"]
  analyses :=
    [ "Multi-hazard deep learning: Ingested 72-hour GFS/HWRF ensemble data (21 members), GOES-16 rapid-scan imagery (1-min interval), and NOAA buoy network (stations 41047, 41048, 41049). Detected tropical system at 23.8N, 78.2W with 55 kt sustained winds, moving NW at 12 kt. Rapid intensification probability: 62% (SHIPS-RII analog). Storm surge model (SLOSH mesh for Miami-Dade) projects 1.8-2.4m above MHHW at Biscayne Bay. Combined wind/surge/rain hazard index: 0.78.",
      "Coupled storm surge prediction: ADCIRC+SWAN model driven by parametric Holland wind profile (Rmax=35nm, B=1.3). Tidal coupling with NOAA CO-OPS stations (Virginia Key 8723214, Miami Beach 8723170). Peak surge timing coincides with astronomical high tide (+0.4m additive effect). Significant wave height at shelf break: 8.2m. Coastal inundation mapping via 3m LiDAR DEM indicates flooding extent reaching I-95 corridor in low-lying zones (Brickell, Miami Beach south of 5th St).",
      "Hydrological flood ensemble: WRF-Hydro forced by 15-member GEFS precipitation forecasts. Antecedent soil moisture from SMAP L4 satellite (0-100cm volumetric: 0.38 m3/m3 — 85th percentile). Miami Canal (C-4, C-6, C-7) stage projections exceed flood stage by 0.6-1.2 ft within 48 hours. South Florida Water Management District pump station capacity analysis: S-26 and S-25B at 80% capacity. Flash flood probability for urban Miami-Dade: 74%.",
      "Tropical cyclone track model: Multi-model consensus from GFS, ECMWF, UKMO, CMC, HWRF — mean track passes within 80nm of Miami at H+48. Intensity consensus: Category 2 at closest approach (95 kt). Track spread (100-nm cone width) narrows to 60nm at H+24, indicating high confidence in landfall zone. Dvorak CI number from CIMSS: 4.5 (increasing). Microwave imagery reveals well-defined inner core with developing eye.",
      "Extreme value analysis: Fitted Generalized Extreme Value (GEV) distribution to Miami-area historical hurricane records (1851-2025). Current event 72-hour rainfall estimate: 250-350mm — return period 25-50 years. Peak wind gust estimate: 130-150 km/h — return period 15-25 years. Combined multi-hazard return period (wind + rain + surge): approximately 30-year event. Exceeds FEMA 1% annual chance flood threshold for Zone AE.",
      "Alert aggregation: NWS Miami (WFO MFL) has issued Hurricane Warning for Miami-Dade County. NOAA Weather Radio KEC84 broadcasting continuous updates. Storm Surge Warning in effect for Biscayne Bay to Key Largo. Tropical storm force winds expected within 36 hours. Current NWS cone of uncertainty includes Miami metropolitan area." ]

def long_range_trend_pool : SpecialistPool where
  miners :=
    [ ⟨"ClimateLens-AI", "5FCLa7kQr", "high", "Seasonal-to-Subseasonal AI Climate Prediction"⟩,
      ⟨"DroughtMonitor-Pro", "5FDMpP9xP", "high", "Multi-index Drought Severity & Duration Model"⟩,
      ⟨"CropYield-Forecaster", "5FCYfL3mK", "mid", "Coupled Climate-Agriculture Impact Prediction"⟩,
      ⟨"TeleconnectionNet", "5FTNtV2nR", "mid", "ENSO/IOD/AMO Teleconnection Pattern Recognition"⟩,
      ⟨"RainfallAnomaly-v2", "5FRAvR4pT", "mid", "Standardized Precipitation Index Forecasting"⟩,
      ⟨"TrendBasic-v1", "5FTBb1qUm", "entry", "Climatological Mean + Linear Trend Extrapolation"⟩ ]
  validators :=
    [ ⟨"FEWS-NET-Verifier", "5VfN1aXp", "Famine Early Warning Systems Network food security validation"⟩,
      ⟨"CHIRPS-SatValidator", "5VcS2bYq", "CHIRPS satellite rainfall estimate cross-check (0.05-degree)"⟩,
      ⟨"NDVI-VegetationOracle", "5VnV3cZr", "MODIS/VIIRS NDVI vegetation health anomaly verification"⟩ ]
  check_labels := ["Rainfall Anomaly Direction", "Drought Index Category", "Food Security Phase Match"]
  analyses :=
    [ "Seasonal AI prediction: Processed CFSv2, SEAS5, and CanSIPS seasonal forecast ensembles through deep learning post-processing pipeline. Sahel rainfall onset date estimated: June 18 (+/- 8 days), approximately 12 days later than 1991-2020 climatology. ITCZ northward migration tracking via OLR anomalies shows delayed progression consistent with developing La Nina pattern (Nino3.4: -0.8C). 90-day cumulative rainfall forecast: 320mm (85% of normal). Combined Palmer Drought Severity Index trajectory: -2.4 (moderate drought) by Day 90.",
      "Multi-index drought analysis: Integrated SPI-3 (current: -1.2), SPEI-3 (current: -1.5), soil moisture percentile from ESA CCI (15th percentile), and GRACE-FO terrestrial water storage anomaly (-45mm equivalent water height). Sahel drought severity classification: D2 (Severe). Historical analog matching (1984, 2004, 2012 Sahel droughts) suggests 65% probability of persistence through September. Lake Chad surface area from Sentinel-2: 1,350 km2 (22% below 5-year mean). Groundwater depletion rate: -8mm/month.",
      "Climate-agriculture coupling: DSSAT crop model (millet, sorghum) forced by ensemble climate forecasts. Growing season rainfall deficit projected: -15 to -25% below normal. Planting window analysis: optimal sowing delayed by 2-3 weeks. Millet yield forecast for Niger/Burkina Faso: 380 kg/ha (28% below 5-year average). Livestock carrying capacity assessment: pasture NDVI anomaly -0.08 indicates moderate to severe rangeland stress. Market price projection (millet, Niamey): +35% above seasonal norm by August.",
      "Teleconnection analysis: ENSO state transitioning to La Nina (Nino3.4 SST: -0.8C, forecast to reach -1.2C by July). Indian Ocean Dipole index: +0.3 (neutral, trending positive). Atlantic Multidecadal Oscillation: warm phase (AMO index: +0.21). Sahel rainfall historically positively correlated with La Nina (r=0.42) but modulated by AMO phase. Combined teleconnection signal suggests below-normal rainfall for western Sahel, near-normal for central Sahel. MJO activity in coming 30 days: predominantly Phase 1-2 (suppressed convection over Africa).",
      "SPI forecasting: Standardized Precipitation Index computed from CHIRPS pentadal satellite estimates (1981-2025 baseline). Current SPI-1: -0.9 (near normal to mild drought). SPI-3 forecast trajectory: declining to -1.5 by Day 60, -1.8 by Day 90. Spatial pattern shows most severe deficits (SPI < -2.0) concentrated in Tillaberi-Dosso corridor (Niger) and northern Burkina Faso. Rainfall onset monitoring via AGRHYMET criteria: <20mm in 3 consecutive dekads — onset not yet established for stations north of 13N.",
      "Linear trend extrapolation: 30-year climatological mean for Sahel region (June-August): 420mm. Trend from CRU TS4.06 dataset: +1.8mm/year (recovery from 1970s-80s drought). Naive forecast: 420 + 1.8 x 1 = 422mm total season. However, no skill for interannual variability or developing ENSO signal. Persistence from current season anomaly applied as simple bias correction." ]

/-- `SPECIALISTS.get(task_type, SPECIALISTS["short_term_forecast"])`. -/
def SPECIALISTS (task_type : String) : SpecialistPool :=
  if task_type = "short_term_forecast" then short_term_forecast_pool
  else if task_type = "risk_index" then risk_index_pool
  else if task_type = "long_range_trend" then long_range_trend_pool
  else short_term_forecast_pool

def DEMO_SCENARIOS (key : String) : Option Scenario :=
  if key = "demo1" then
    some
      { title := "7-Day Temperature Forecast -- Jakarta, Indonesia"
        subtitle := "Monsoon season peak, flooding risk elevated, cross-equatorial flow active"
        task_type := "short_term_forecast"
        synapse :=
          { task_type := some "short_term_forecast"
            location := some "Jakarta, Indonesia"
            target_date := some "2026-02-25"
            forecast_horizon_days := some 7
            variables' := ["temperature", "precipitation", "humidity", "wind"]
            conditions := some
              { season := some "monsoon_peak"
                enso_state := some "la_nina_moderate"
                mjo_phase := some "phase_4_active" }
            random_seed := some 42001 }
        ground_truth :=
          { actual_temp_celsius := some 29.4
            actual_precip_mm := some 185.0
            actual_risk_index := some 0.72
            had_extreme_event := some true
            extreme_event_type := some "urban_flooding" } }
  else if key = "demo2" then
    some
      { title := "Extreme Weather Risk Assessment -- Miami, Florida"
        subtitle := "Hurricane season, storm surge modeling, coastal flood risk critical"
        task_type := "risk_index"
        synapse :=
          { task_type := some "risk_index"
            location := some "Miami, Florida"
            target_date := some "2026-09-15"
            forecast_horizon_days := some 5
            variables' := ["wind_speed", "storm_surge", "precipitation", "pressure"]
            conditions := some
              { season := some "hurricane_peak"
                enso_state := some "neutral"
                sst_anomaly := some "above_normal_atlantic" }
            random_seed := some 42002 }
        ground_truth :=
          { actual_temp_celsius := some 31.2
            actual_precip_mm := some 280.0
            actual_risk_index := some 0.85
            had_extreme_event := some true
            extreme_event_type := some "hurricane_category2" } }
  else if key = "demo3" then
    some
      { title := "90-Day Climate Trend -- Sahel Region, Africa"
        subtitle := "Drought monitoring, food security assessment, seasonal rainfall onset delay"
        task_type := "long_range_trend"
        synapse :=
          { task_type := some "long_range_trend"
            location := some "Sahel Region, Africa"
            target_date := some "2026-06-01"
            forecast_horizon_days := some 90
            variables' := ["precipitation", "temperature", "soil_moisture", "ndvi"]
            conditions := some
              { season := some "pre_monsoon"
                enso_state := some "la_nina_developing"
                iod_state := some "neutral" }
            random_seed := some 42003 }
        ground_truth :=
          { actual_temp_celsius := some 38.5
            actual_precip_mm := some 95.0
            actual_risk_index := some 0.68
            had_extreme_event := some true
            extreme_event_type := some "drought_moderate" } }
  else none

def CLIMATE_BASELINES (loc : String) : Option Baseline :=
  if loc = "Jakarta, Indonesia" then some ⟨28.5, 150.0, 82.0, 15.0, 0.35⟩
  else if loc = "Miami, Florida" then some ⟨30.0, 120.0, 75.0, 20.0, 0.30⟩
  else if loc = "Sahel Region, Africa" then some ⟨37.0, 60.0, 35.0, 18.0, 0.40⟩
  else if loc = "Tokyo, Japan" then some ⟨22.0, 80.0, 65.0, 12.0, 0.20⟩
  else if loc = "London, UK" then some ⟨14.0, 55.0, 78.0, 22.0, 0.15⟩
  else if loc = "Sydney, Australia" then some ⟨25.0, 70.0, 60.0, 16.0, 0.22⟩
  else none

def SEASON_IMPACTS (season : String) : Option SeasonImpact :=
  if season = "monsoon_peak" then some ⟨1.0, 2.5, 0.25⟩
  else if season = "hurricane_peak" then some ⟨1.5, 3.0, 0.35⟩
  else if season = "pre_monsoon" then some ⟨2.0, 0.6, 0.20⟩
  else if season = "dry_season" then some ⟨0.5, 0.3, 0.05⟩
  else if season = "winter" then some ⟨-5.0, 0.8, 0.10⟩
  else if season = "normal" then some ⟨0.0, 1.0, 0.0⟩
  else none

def ENSO_IMPACTS (enso : String) : Option EnsoImpact :=
  if enso = "la_nina_moderate" then some ⟨1.3, 0.10⟩
  else if enso = "la_nina_developing" then some ⟨0.8, 0.15⟩
  else if enso = "el_nino_moderate" then some ⟨0.7, 0.12⟩
  else if enso = "neutral" then some ⟨1.0, 0.0⟩
  else none

/-! ## Miner response generator (`_generate_miner_responses`, ai.py 212-296) -/

structure MinerResp where
  uid : ℕ
  hotkey : String
  name : String
  tier : String
  specialty : String
  predicted_temp_celsius : ℚ
  predicted_precip_mm : ℚ
  predicted_risk_index : ℚ
  predicted_humidity_pct : ℚ
  predicted_wind_kmh : ℚ
  confidence : ℚ
  score : ℚ
  response_time_s : ℚ
  analysis : String
  rank : ℕ
  tao_earned : ℚ := 0
deriving DecidableEq, Repr

/-- ai.py 220-221: `CLIMATE_BASELINES.get(location, {...default...})`. -/
def gmrBaseline (synapse : Synapse) : Baseline :=
  (CLIMATE_BASELINES (synapse.location.getD "Jakarta, Indonesia")).getD
    ⟨25.0, 100.0, 70.0, 15.0, 0.25⟩

/-- ai.py 223-226: season modifier resolution. -/
def gmrSeasonImpact (synapse : Synapse) : SeasonImpact :=
  (SEASON_IMPACTS ((synapse.conditions.getD {}).season.getD "normal")).getD ⟨0, 1.0, 0⟩

/-- ai.py 223-227: ENSO modifier resolution (computed, then unused by the
rest of `_generate_miner_responses`). -/
def gmrEnsoImpact (synapse : Synapse) : EnsoImpact :=
  (ENSO_IMPACTS ((synapse.conditions.getD {}).enso_state.getD "neutral")).getD ⟨1.0, 0⟩

/-- ai.py 229-231: the `actual_*` reference values
(`actual_temp`, `actual_precip`, `actual_risk`). -/
def actualRefs (synapse : Synapse) (ground_truth : GroundTruth) : ℚ × ℚ × ℚ :=
  let baseline := gmrBaseline synapse
  let season_impact := gmrSeasonImpact synapse
  ( ground_truth.actual_temp_celsius.getD (baseline.base_temp + season_impact.temp_delta),
    ground_truth.actual_precip_mm.getD (baseline.base_precip_mm * season_impact.precip_mult),
    ground_truth.actual_risk_index.getD (baseline.risk_baseline + season_impact.risk_increase) )

/-- ai.py 237-256: tier-dependent draws, in program order
(temp_error, precip_error, risk_error, score, response_time at call
indices 0, 1, 2, 3, 4 of the miner's own generator). -/
def tierDraws (e : Env) (s : ℤ) (tier : String) : ℚ × ℚ × ℚ × ℚ × ℚ :=
  if tier = "high" then
    (0.5 * e.g s 0, 12.0 * e.g s 1, 0.04 * e.g s 2,
     pround 4 (0.82 + (0.97 - 0.82) * e.u s 3), pround 2 (0.3 + (1.2 - 0.3) * e.u s 4))
  else if tier = "mid" then
    (1.2 * e.g s 0, 25.0 * e.g s 1, 0.08 * e.g s 2,
     pround 4 (0.62 + (0.82 - 0.62) * e.u s 3), pround 2 (0.8 + (2.2 - 0.8) * e.u s 4))
  else
    (2.5 * e.g s 0, 45.0 * e.g s 1, 0.15 * e.g s 2,
     pround 4 (0.40 + (0.62 - 0.40) * e.u s 3), pround 2 (1.5 + (3.5 - 1.5) * e.u s 4))

/-- Body of the miner loop of `_generate_miner_responses` (ai.py 234-289)
for the miner at 0-indexed position `i` of the selected pool.  The
generator seed is `seed + i * 7` (ai.py 235); the position-0 override
(ai.py 259-264) redraws score, response time and errors at call indices
5-9; the remaining draws (humidity, wind, confidence) follow. -/
def minerResponse (e : Env) (seed : ℤ) (refs : ℚ × ℚ × ℚ) (baseline : Baseline)
    (analyses : List String) (i : ℕ) (miner : MinerSpec) : MinerResp :=
  let s : ℤ := seed + (i : ℤ) * 7
  let td := tierDraws e s miner.tier
  let score := if i = 0 then pround 4 (0.93 + (0.99 - 0.93) * e.u s 5) else td.2.2.2.1
  let response_time := if i = 0 then pround 2 (0.2 + (0.6 - 0.2) * e.u s 6) else td.2.2.2.2
  let temp_error := if i = 0 then 0.2 * e.g s 7 else td.1
  let precip_error := if i = 0 then 5.0 * e.g s 8 else td.2.1
  let risk_error := if i = 0 then 0.02 * e.g s 9 else td.2.2.1
  let c : ℕ := if i = 0 then 10 else 5
  { uid := i + 1
    hotkey := miner.hotkey ++ "..." ++ (e.md5hex miner.hotkey).take 6
    name := miner.name
    tier := miner.tier
    specialty := miner.specialty
    predicted_temp_celsius := pround 1 (refs.1 + temp_error)
    predicted_precip_mm := pround 1 (max 0 (refs.2.1 + precip_error))
    predicted_risk_index := pround 2 (min 1 (max 0 (refs.2.2 + risk_error)))
    predicted_humidity_pct := pround 1 (max 10 (min 100 (baseline.base_humidity + 5 * e.g s c)))
    predicted_wind_kmh := pround 1 (max 0 (baseline.base_wind_kmh + 4 * e.g s (c + 1)))
    confidence := pround 2 (if miner.tier ≠ "entry" then 0.6 + (0.95 - 0.6) * e.u s (c + 2)
                            else 0.4 + (0.65 - 0.4) * e.u s (c + 2))
    score := score
    response_time_s := response_time
    analysis := analyses.getD i (analyses.getLastD "")
    rank := i + 1 }

/-- ai.py 293-294: `for i, m in enumerate(miners): m["rank"] = i + 1`
(started at rank `k`). -/
def assignRanks : ℕ → List MinerResp → List MinerResp
  | _, [] => []
  | k, m :: ms => { m with rank := k } :: assignRanks (k + 1) ms

/-- `_generate_miner_responses(task_type, synapse, ground_truth,
num_miners=6)` (ai.py 212-296). -/
def _generate_miner_responses (e : Env) (task_type : String) (synapse : Synapse)
    (ground_truth : GroundTruth) (num_miners : ℕ) : List MinerResp :=
  let spec := SPECIALISTS task_type
  let pool := spec.miners
  let num := min num_miners pool.length
  let selected := pool.take num
  let analyses := spec.analyses
  let baseline := gmrBaseline synapse
  let refs := actualRefs synapse ground_truth
  let seed : ℤ := synapse.random_seed.getD 42
  let miners := selected.enum.map fun p => minerResponse e seed refs baseline analyses p.1 p.2
  assignRanks 1 (sortBy (fun a b => decide (b.score ≤ a.score)) miners)

/-! ## Validator check generator (`_generate_validator_results`, ai.py 299-335) -/

structure ValidatorResp where
  uid : ℕ
  hotkey : String
  name : String
  specialty : String
  stake_tao : ℚ
  vtrust : ℚ
  checks_passed : ℕ
  checks_total : ℕ
  check_details : List (String × Bool)
  consensus : String
deriving DecidableEq, Repr

/-- ai.py 316-320: one boolean check per label, pass iff
`rng.random() < 0.85`, consuming one draw per label starting at call
index `k`. -/
def validatorChecks (e : Env) (s : ℤ) : List String → ℕ → List (String × Bool)
  | [], _ => []
  | label :: rest, k => (label, decide (e.u s k < 0.85)) :: validatorChecks e s rest (k + 1)

def _generate_validator_results (e : Env) (task_type : String) (num_validators : ℕ) :
    List ValidatorResp :=
  let spec := SPECIALISTS task_type
  let pool := spec.validators
  let num := min num_validators pool.length
  let selected := pool.take num
  selected.enum.map fun p =>
    let j : ℕ := p.1
    let val := p.2
    let s : ℤ := 42 + (j : ℤ) * 13
    let stake := pround 2 (5000 + (18000 - 5000) * e.u s 0)
    let vtrust := pround 4 (0.88 + (0.99 - 0.88) * e.u s 1)
    let checks := validatorChecks e s spec.check_labels 2
    let checks_passed := (checks.filter (·.2)).length
    { uid := j + 1
      hotkey := val.hotkey ++ "..." ++ (e.md5hex val.hotkey).take 6
      name := val.name
      specialty := val.specialty
      stake_tao := stake
      vtrust := vtrust
      checks_passed := checks_passed
      checks_total := spec.check_labels.length
      check_details := checks
      consensus := if checks_passed ≥ 2 then "Approved" else "Disputed" }

/-! ## Demo orchestrator (`run_demo_scenario`, ai.py 338-375) -/

structure DemoResult where
  scenario : String
  title : String
  subtitle : String
  task_type : String
  synapse : Synapse
  ground_truth : GroundTruth
  miner_responses : List MinerResp
  miner_nodes_consulted : ℕ
  validator_results : List ValidatorResp
  validator_nodes_consulted : ℕ
  tao_reward_pool : ℚ
  consensus_reached : Bool
  block_number : ℕ
  tempo : ℕ
  timestamp : String
  subnet_version : String
deriving DecidableEq, Repr

/-- ai.py 348-356: the miner list of a demo run — generated responses
with `tao_earned` assigned from the miner share (41%) of the pool. -/
def demoMiners (e : Env) (scenario : Scenario) : List MinerResp :=
  let miner_responses :=
    _generate_miner_responses e scenario.task_type scenario.synapse scenario.ground_truth 6
  let total_tao := pround 4 (0.08 + (0.42 - 0.08) * e.u 42 0)
  let total_score := (miner_responses.map (·.score)).sum
  miner_responses.map fun m =>
    { m with tao_earned := if total_score > 0
                           then pround 6 (total_tao * 0.41 * (m.score / total_score))
                           else 0 }

/-- The successful branch of `run_demo_scenario` (ai.py 344-375), for a
scenario found in the table.  `block_number`, `tempo` (draws on the
global `random` module) and the wall-clock `timestamp` are inputs of the
model. -/
def demoResultOf (e : Env) (scenario_key : String) (scenario : Scenario)
    (block_number tempo : ℕ) (timestamp : String) : DemoResult :=
    let task_type := scenario.task_type
    let synapse := scenario.synapse
    let ground_truth := scenario.ground_truth
    let validator_results := _generate_validator_results e task_type 3
    let total_tao := pround 4 (0.08 + (0.42 - 0.08) * e.u 42 0)
    let miner_responses := demoMiners e scenario
    { scenario := scenario_key
      title := scenario.title
      subtitle := scenario.subtitle
      task_type := task_type
      synapse := synapse
      ground_truth := ground_truth
      miner_responses := miner_responses
      miner_nodes_consulted := miner_responses.length
      validator_results := validator_results
      validator_nodes_consulted := validator_results.length
      tao_reward_pool := total_tao
      consensus_reached := validator_results.all (fun v => decide (v.consensus = "Approved"))
      block_number := block_number
      tempo := tempo
      timestamp := timestamp
      subnet_version := "1.0.0-beta" }

/-- `run_demo_scenario(scenario_key)` (ai.py 338-375).  The unknown-key
branch (ai.py 341-342) returns `{"error": f"Unknown scenario: ..."}`,
modelled by `Except.error`; a known key produces the full result
(`demoResultOf`). -/
def run_demo_scenario (e : Env) (scenario_key : String) (block_number tempo : ℕ)
    (timestamp : String) : Except String DemoResult :=
  match DEMO_SCENARIOS scenario_key with
  | none => .error ("Unknown scenario: " ++ scenario_key)
  | some scenario => .ok (demoResultOf e scenario_key scenario block_number tempo timestamp)

/-- `routes.run_demo` (routes.py 809-813): surfaces the engine's
structured error as an HTTP 404, otherwise forwards the result. -/
def run_demo (e : Env) (scenario_key : String) (block_number tempo : ℕ)
    (timestamp : String) : Except (ℕ × String) DemoResult :=
  match run_demo_scenario e scenario_key block_number tempo timestamp with
  | .error msg => .error (404, msg)
  | .ok r => .ok r

/-! ## Legacy miner path (`run_miner_prediction`, ai.py 399-458) -/

structure RiskFactor where
  factor : String
  severity : ℚ
  description : String
deriving DecidableEq, Repr

structure Prediction where
  miner_uid : ℕ
  miner_hotkey : String
  predicted_temp_celsius : ℚ
  predicted_precip_mm : ℚ
  predicted_humidity_pct : ℚ
  predicted_wind_kmh : ℚ
  risk_index : ℚ
  confidence : ℚ
  risk_factors : List RiskFactor
  response_time_ms : ℚ
  data_sources : ℕ
deriving DecidableEq, Repr

/-- Python `str.title()` for the space-separated words produced by
`season.replace("_", " ")`. -/
def pytitle (s : String) : String :=
  String.intercalate " " ((s.splitOn " ").map String.capitalize)

/-- ai.py 401: the generator seed of `run_miner_prediction` — the
challenge's `random_seed` when present, else `int(time.time())` (the
current wall clock, an input `now` of the model). -/
def rmpSeed (synapse_dict : Synapse) (now : ℤ) : ℤ :=
  synapse_dict.random_seed.getD now

/-- `run_miner_prediction(synapse_dict, tier)` (ai.py 399-458).  Draw
order: tier noises (g 0, g 1), confidence (u 2), latency (u 3),
data_sources (n 4), humidity (g 5), wind (g 6), risk (g 7). -/
def run_miner_prediction (e : Env) (synapse_dict : Synapse) (tier : String) (now : ℤ) :
    Prediction :=
  let s : ℤ := rmpSeed synapse_dict now
  let baseline := (CLIMATE_BASELINES (synapse_dict.location.getD "Jakarta, Indonesia")).getD
    ⟨25.0, 100.0, 70.0, 15.0, 0.25⟩
  let conditions := synapse_dict.conditions.getD {}
  let season := conditions.season.getD "normal"
  let enso := conditions.enso_state.getD "neutral"
  let season_impact := (SEASON_IMPACTS season).getD ⟨0, 1.0, 0⟩
  let enso_impact := (ENSO_IMPACTS enso).getD ⟨1.0, 0⟩
  let noise_temp := if tier = "high" then 0.5 * e.g s 0
    else if tier = "mid" then 1.2 * e.g s 0 else 2.5 * e.g s 0
  let noise_precip := if tier = "high" then 10 * e.g s 1
    else if tier = "mid" then 22 * e.g s 1 else 40 * e.g s 1
  let confidence := if tier = "high" then pround 2 (0.82 + (0.96 - 0.82) * e.u s 2)
    else if tier = "mid" then pround 2 (0.65 + (0.82 - 0.65) * e.u s 2)
    else pround 2 (0.40 + (0.65 - 0.40) * e.u s 2)
  let latency := if tier = "high" then pround 0 (200 + (800 - 200) * e.u s 3)
    else if tier = "mid" then pround 0 (500 + (2000 - 500) * e.u s 3)
    else pround 0 (1500 + (4000 - 1500) * e.u s 3)
  let data_sources := if tier = "high" then 8 + e.n s 4 % 8
    else if tier = "mid" then 4 + e.n s 4 % 6 else 1 + e.n s 4 % 5
  let predicted_temp := pround 1 (baseline.base_temp + season_impact.temp_delta + noise_temp)
  let predicted_precip := pround 1
    (max 0 (baseline.base_precip_mm * season_impact.precip_mult * enso_impact.precip_mult
            + noise_precip))
  let predicted_humidity := pround 1 (max 10 (min 100 (baseline.base_humidity + 5 * e.g s 5)))
  let predicted_wind := pround 1 (max 0 (baseline.base_wind_kmh + 4 * e.g s 6))
  let risk_index := pround 2 (min 1 (max 0
    (baseline.risk_baseline + season_impact.risk_increase + enso_impact.risk_increase
     + 0.05 * e.g s 7)))
  let risk_factors :=
    (if season_impact.risk_increase > 0.1 then
      [RiskFactor.mk (pytitle (season.replace "_" " "))
        (pround 1 (season_impact.risk_increase * 5)) "Seasonal pattern increases climate risk"]
     else []) ++
    (if enso_impact.risk_increase > 0 then
      [RiskFactor.mk (pytitle (enso.replace "_" " "))
        (pround 1 (enso_impact.risk_increase * 5)) "ENSO state modifying regional patterns"]
     else [])
  { miner_uid := 0
    miner_hotkey := ""
    predicted_temp_celsius := predicted_temp
    predicted_precip_mm := predicted_precip
    predicted_humidity_pct := predicted_humidity
    predicted_wind_kmh := predicted_wind
    risk_index := risk_index
    confidence := confidence
    risk_factors := risk_factors
    response_time_ms := latency
    data_sources := data_sources }

/-! ## Scoring engine (`score_prediction`, ai.py 461-503) -/

/-- The dict keys `score_prediction` reads from its `prediction`
argument, each possibly absent (`.get` with default). -/
structure PredDict where
  miner_hotkey : Option String := none
  predicted_temp_celsius : Option ℚ := none
  predicted_precip_mm : Option ℚ := none
  risk_index : Option ℚ := none
  response_time_ms : Option ℚ := none
deriving DecidableEq, Repr

structure Score where
  temp_accuracy : ℚ
  precip_accuracy : ℚ
  risk_accuracy : ℚ
  latency_score : ℚ
  consistency : ℚ
  extreme_event_bonus : Bool
  final_score : ℚ
deriving DecidableEq, Repr

/-- `score_prediction(prediction, ground_truth)` (ai.py 461-503).  The
consistency generator is seeded by `hash(str(hotkey)) % 2**31`
(`Env.pyhash` models the builtin hash). -/
def score_prediction (e : Env) (prediction : PredDict) (ground_truth : GroundTruth) : Score :=
  let s : ℤ := ((e.pyhash (prediction.miner_hotkey.getD "") % 2 ^ 31 : ℕ) : ℤ)
  let actual_temp := ground_truth.actual_temp_celsius.getD 28.0
  let predicted_temp := prediction.predicted_temp_celsius.getD 28.0
  let temp_accuracy := pround 4 (max 0 (1 - |predicted_temp - actual_temp| / 5))
  let actual_precip := ground_truth.actual_precip_mm.getD 100.0
  let predicted_precip := prediction.predicted_precip_mm.getD 100.0
  let precip_accuracy := pround 4 (max 0 (1 - |predicted_precip - actual_precip| / 200))
  let actual_risk := ground_truth.actual_risk_index.getD 0.5
  let predicted_risk := prediction.risk_index.getD 0.5
  let risk_accuracy := pround 4 (max 0 (1 - |predicted_risk - actual_risk| / (1/2)))
  let latency_ms := prediction.response_time_ms.getD 1000
  let latency_score := pround 4 (max 0 (1 - latency_ms / 10000))
  let consistency := pround 4 (0.65 + (0.95 - 0.65) * e.u s 0)
  let had_extreme := ground_truth.had_extreme_event.getD false
  let predicted_extreme := decide (predicted_risk > 0.6)
  let extreme_bonus := predicted_extreme && had_extreme
  let final0 := 0.40 * temp_accuracy + 0.25 * precip_accuracy + 0.15 * risk_accuracy
    + 0.10 * latency_score + 0.10 * consistency
  let final1 := if extreme_bonus then final0 * 1.5 else final0
  { temp_accuracy := temp_accuracy
    precip_accuracy := precip_accuracy
    risk_accuracy := risk_accuracy
    latency_score := latency_score
    consistency := consistency
    extreme_event_bonus := extreme_bonus
    final_score := pround 4 (min 1 final1) }

/-! ## Seed derivation and query path (`src/oracle/oracle.py`) -/

/-- Value of a lowercase hex digit (as produced by `hexdigest()`):
48-57 are the digits, 97-102 the letters a-f.  Python's `int(h, 16)`
raises on anything else; the model totalises by reducing mod 16 (identity
on every actual hex digit). -/
def hexVal (c : Char) : ℕ :=
  (if c.isDigit then c.toNat - 48 else c.toNat - 87) % 16

/-- Python `int(h, 16)` over a list of hex digits. -/
def hexToNat (l : List Char) : ℕ := l.foldl (fun a c => 16 * a + hexVal c) 0

/-- `_seed_from(location, date)` (oracle.py 5-7): first 8 hex digits of
`md5(f"{location}:{date}").hexdigest()` read as an integer. -/
def _seed_from (md5hexdigest : String → String) (location date : String) : ℕ :=
  hexToNat ((md5hexdigest (location ++ ":" ++ date)).toList.take 8)

structure ClimateQuery where
  location : String
  date : String
deriving DecidableEq, Repr

structure RiskBreakdown where
  flood_risk : ℚ
  heatwave_risk : ℚ
  storm_risk : ℚ
  drought_risk : ℚ
deriving DecidableEq, Repr

structure ClimatePredictionR where
  location : String
  date : String
  temperature_celsius : ℚ
  humidity_percent : ℚ
  precipitation_mm : ℚ
  wind_speed_kmh : ℚ
  risk_level : String
  risk_index : ℚ
  risk_breakdown : RiskBreakdown
  confidence : ℚ
  data_sources : List String
  model_version : String
deriving DecidableEq, Repr

/-- `get_climate_prediction(query)` (oracle.py 10-47); seeded with
`_seed_from(query.location, query.date)`. -/
def get_climate_prediction (e : Env) (query : ClimateQuery) : ClimatePredictionR :=
  let s : ℤ := (_seed_from e.md5hex query.location query.date : ℤ)
  let temp := pround 1 (22.0 + (35.0 - 22.0) * e.u s 0)
  let humidity := pround 1 (55.0 + (95.0 - 55.0) * e.u s 1)
  let precip := pround 1 (0.0 + (25.0 - 0.0) * e.u s 2)
  let wind := pround 1 (5.0 + (45.0 - 5.0) * e.u s 3)
  let risk_idx := pround 2 (0.05 + (0.85 - 0.05) * e.u s 4)
  let risk_level := if risk_idx < 0.25 then "low"
    else if risk_idx < 0.50 then "moderate"
    else if risk_idx < 0.75 then "high"
    else "extreme"
  { location := query.location
    date := query.date
    temperature_celsius := temp
    humidity_percent := humidity
    precipitation_mm := precip
    wind_speed_kmh := wind
    risk_level := risk_level
    risk_index := risk_idx
    risk_breakdown :=
      { flood_risk := pround 2 (0.0 + (0.6 - 0.0) * e.u s 5)
        heatwave_risk := pround 2 (0.0 + (0.5 - 0.0) * e.u s 6)
        storm_risk := pround 2 (0.0 + (0.7 - 0.0) * e.u s 7)
        drought_risk := pround 2 (0.0 + (0.3 - 0.0) * e.u s 8) }
    confidence := pround 2 (0.72 + (0.96 - 0.72) * e.u s 9)
    data_sources := ["NOAA", "ECMWF", "NASA POWER", "OpenMeteo"]
    model_version := "climate-oracle-v0.3.1" }

/-! ## Reward allocation (`routes.run_challenge`, routes.py 396-404) -/

/-- One miner's `tau_earned` (routes.py 401-404): zero when the total
score is not positive, else the 6-decimal rounding of the proportional
share — no division is ever performed in the zero-total case. -/
def tauForScore (total_emission total_scores s : ℚ) : ℚ :=
  if total_scores > 0 then pround 6 (total_emission * (s / total_scores)) else 0

/-- The reward-allocation loop of `run_challenge` (routes.py 396-404):
scores are sorted descending (stable), summed, and each entry earns its
proportional share of `total_emission`. -/
def assignTauEarned (total_emission : ℚ) (finalScores : List ℚ) : List ℚ :=
  let sorted := sortBy (fun a b => decide (b ≤ a)) finalScores
  let total_scores := sorted.sum
  sorted.map (tauForScore total_emission total_scores)

/-! ## Helper lemmas about the embedded operations -/

theorem hexVal_lt (c : Char) : hexVal c < 16 :=
  Nat.mod_lt _ (by norm_num)

theorem hexToNat_foldl_lt (l : List Char) (a : ℕ) :
    l.foldl (fun a c => 16 * a + hexVal c) a < 16 ^ l.length * (a + 1) := by
  induction l generalizing a with
  | nil => simp
  | cons c l ih =>
    simp only [List.foldl_cons, List.length_cons]
    calc l.foldl (fun a c => 16 * a + hexVal c) (16 * a + hexVal c)
        < 16 ^ l.length * (16 * a + hexVal c + 1) := ih _
      _ ≤ 16 ^ l.length * (16 * a + 16) := by
          have := hexVal_lt c
          exact Nat.mul_le_mul (Nat.le_refl _) (by omega)
      _ = 16 ^ (l.length + 1) * (a + 1) := by ring

theorem hexToNat_lt (l : List Char) : hexToNat l < 16 ^ l.length := by
  have h := hexToNat_foldl_lt l 0
  simpa [hexToNat] using h

theorem assignRanks_length (k : ℕ) (l : List MinerResp) :
    (assignRanks k l).length = l.length := by
  induction l generalizing k with
  | nil => rfl
  | cons m ms ih => simp [assignRanks, ih]

theorem assignRanks_map_proj {α : Type} (f : MinerResp → α)
    (hf : ∀ (m : MinerResp) (k : ℕ), f { m with rank := k } = f m) (k : ℕ)
    (l : List MinerResp) : (assignRanks k l).map f = l.map f := by
  induction l generalizing k with
  | nil => rfl
  | cons m ms ih => simp [assignRanks, hf, ih]

theorem assignRanks_map_rank (k : ℕ) (l : List MinerResp) :
    (assignRanks k l).map MinerResp.rank = List.range' k l.length := by
  induction l generalizing k with
  | nil => rfl
  | cons m ms ih => simp [assignRanks, List.range'_succ, ih]

theorem sortBy_length {α : Type} (le : α → α → Bool) (l : List α) :
    (sortBy le l).length = l.length :=
  (sortBy_perm le l).length_eq

theorem SPECIALISTS_miners_length (t : String) : (SPECIALISTS t).miners.length = 6 := by
  unfold SPECIALISTS
  split_ifs <;> rfl

theorem gmr_length (e : Env) (t : String) (syn : Synapse) (gt : GroundTruth) :
    (_generate_miner_responses e t syn gt 6).length = 6 := by
  unfold _generate_miner_responses
  simp [assignRanks_length, sortBy_length, List.enum_length, List.length_take,
    SPECIALISTS_miners_length]

theorem abs_sum_map_pround_sub (n : ℕ) (f : ℚ → ℚ) (l : List ℚ) :
    |(l.map (fun s => pround n (f s))).sum - (l.map f).sum|
      ≤ l.length * (1 / (2 * 10 ^ n)) := by
  induction l with
  | nil => simp
  | cons x l ih =>
    simp only [List.map_cons, List.sum_cons, List.length_cons]
    have hx := pround_err n (f x)
    have h1 : pround n (f x) + (l.map (fun s => pround n (f s))).sum - (f x + (l.map f).sum)
        = (pround n (f x) - f x)
          + ((l.map (fun s => pround n (f s))).sum - (l.map f).sum) := by ring
    rw [h1]
    calc |(pround n (f x) - f x)
            + ((l.map (fun s => pround n (f s))).sum - (l.map f).sum)|
        ≤ |pround n (f x) - f x|
            + |(l.map (fun s => pround n (f s))).sum - (l.map f).sum| := abs_add _ _
      _ ≤ 1 / (2 * 10 ^ n) + l.length * (1 / (2 * 10 ^ n)) := add_le_add hx ih
      _ = (l.length + 1) * (1 / (2 * 10 ^ n)) := by ring
      _ = ((l.length + 1 : ℕ) : ℚ) * (1 / (2 * 10 ^ n)) := by push_cast; ring

theorem sum_map_mul_div (c T : ℚ) (l : List ℚ) :
    (l.map (fun s => c * (s / T))).sum = c * (l.sum / T) := by
  induction l with
  | nil => simp
  | cons x l ih =>
    simp only [List.map_cons, List.sum_cons, ih]
    ring

/-- `grid_le_pround` phrased with an arbitrary constant `c` known to lie
on the decimal grid. -/
theorem grid_le_pround' (n : ℕ) (k : ℤ) (c : ℚ) (hc : (k : ℚ) / 10 ^ n = c) {x : ℚ}
    (h : c ≤ x) : c ≤ pround n x :=
  hc ▸ grid_le_pround n k (hc.symm ▸ h)

/-- `pround_le_grid` phrased with an arbitrary constant `c` known to lie
on the decimal grid. -/
theorem pround_le_grid' (n : ℕ) (k : ℤ) (c : ℚ) (hc : (k : ℚ) / 10 ^ n = c) {x : ℚ}
    (h : x ≤ c) : pround n x ≤ c :=
  hc ▸ pround_le_grid n k (hc.symm ▸ h)

/-- Clamp-then-round stays in `[0, 1]` (2-decimal rounding). -/
theorem pround_clamp01 (x : ℚ) :
    0 ≤ pround 2 (min 1 (max 0 x)) ∧ pround 2 (min 1 (max 0 x)) ≤ 1 :=
  ⟨pround_nonneg 2 (le_min (by norm_num) (le_max_left _ _)),
   pround_le_grid' 2 100 1 (by norm_num) (min_le_left _ _)⟩

theorem pround_max0_nonneg (n : ℕ) (x : ℚ) : 0 ≤ pround n (max 0 x) :=
  pround_nonneg n (le_max_left _ _)

/-- Clamp-then-round stays in `[10, 100]` (1-decimal rounding of humidity). -/
theorem pround_humidity_bounds (z : ℚ) :
    10 ≤ pround 1 (max 10 (min 100 z)) ∧ pround 1 (max 10 (min 100 z)) ≤ 100 :=
  ⟨grid_le_pround' 1 100 10 (by norm_num) (le_max_left _ _),
   pround_le_grid' 1 1000 100 (by norm_num) (max_le (by norm_num) (min_le_left _ _))⟩

theorem pround_one (n : ℕ) : pround n 1 = 1 := by
  have h := pround_grid n ((10 : ℤ) ^ n)
  have hc : (((10 : ℤ) ^ n : ℤ) : ℚ) / 10 ^ n = 1 := by
    push_cast
    field_simp
  rw [hc] at h
  exact h

theorem mem_assignRanks {resp : MinerResp} :
    ∀ (k : ℕ) (l : List MinerResp), resp ∈ assignRanks k l →
      ∃ m ∈ l, ∃ r, resp = { m with rank := r } := by
  intro k l
  induction l generalizing k with
  | nil => simp [assignRanks]
  | cons m ms ih =>
    intro h
    rcases List.mem_cons.mp h with h | h
    · exact ⟨m, List.mem_cons_self m ms, k, h⟩
    · rcases ih _ h with ⟨m2, hm2, r, he⟩
      exact ⟨m2, List.mem_cons_of_mem _ hm2, r, he⟩


theorem roundHalfEven_eq_of (q : ℚ) (k : ℤ) (h1 : (k : ℚ) - 1/2 < q)
    (h2 : q < (k : ℚ) + 1/2) : roundHalfEven q = k := by
  rcases le_or_lt (k : ℚ) q with hk | hk
  · have hf : ⌊q⌋ = k := by
      rw [Int.floor_eq_iff]
      exact ⟨hk, by linarith⟩
    unfold roundHalfEven
    rw [hf]
    rw [if_pos (by linarith : q - (k : ℚ) < 1/2)]
  · have hf : ⌊q⌋ = k - 1 := by
      rw [Int.floor_eq_iff]
      constructor <;> push_cast <;> linarith
    unfold roundHalfEven
    rw [hf]
    have hge : ¬(q - ((k - 1 : ℤ) : ℚ) < 1/2) := by push_cast; linarith
    have hgt : 1/2 < q - ((k - 1 : ℤ) : ℚ) := by push_cast; linarith
    rw [if_neg hge, if_pos hgt]
    omega

/-- Evaluation rule for `pround` away from ties. -/
theorem pround_eq (n : ℕ) (q : ℚ) (k : ℤ)
    (h1 : (k : ℚ) - 1/2 < q * 10 ^ n) (h2 : q * 10 ^ n < (k : ℚ) + 1/2) :
    pround n q = (k : ℚ) / 10 ^ n := by
  unfold pround
  rw [roundHalfEven_eq_of _ k h1 h2]

/-! ## Claim theorems -/

/-- C9: for every scenario key outside the fixed demo table,
`run_demo_scenario` returns the structured error
`Unknown scenario: <key>` instead of a full result, and the route layer
(`run_demo`) surfaces it as an HTTP 404 not-found signal. -/
theorem C9_unknown_scenario_handling (e : Env) (key : String) (bn tp : ℕ) (ts : String)
    (h : DEMO_SCENARIOS key = none) :
    run_demo_scenario e key bn tp ts = .error ("Unknown scenario: " ++ key)
    ∧ run_demo e key bn tp ts = .error (404, "Unknown scenario: " ++ key) := by
  have h1 : run_demo_scenario e key bn tp ts = .error ("Unknown scenario: " ++ key) := by
    unfold run_demo_scenario
    rw [h]
  refine ⟨h1, ?_⟩
  unfold run_demo
  rw [h1]

/-- Witness for C9 at the concrete unknown key `demo99`. -/
theorem C9_witness :
    run_demo_scenario zeroEnv "demo99" 0 0 "ts" = .error ("Unknown scenario: " ++ "demo99")
    ∧ run_demo zeroEnv "demo99" 0 0 "ts" = .error (404, "Unknown scenario: " ++ "demo99") :=
  C9_unknown_scenario_handling zeroEnv "demo99" 0 0 "ts" (by decide)

/-- C2: `score_prediction` returns a final score equal to the weighted
sum `0.40·temp + 0.25·precip + 0.15·risk + 0.10·latency +
0.10·consistency` of its own reported components, multiplied by 1.5
exactly when the extreme bonus fires, clamped to at most 1 and rounded to
4 decimals; the bonus fires iff the predicted risk exceeds 0.6 and the
ground truth records an extreme event. -/
theorem C2_scoring_formula (e : Env) (p : PredDict) (gt : GroundTruth) :
    (score_prediction e p gt).final_score
      = pround 4 (min 1
          ((if (score_prediction e p gt).extreme_event_bonus then (3/2 : ℚ) else 1)
            * (0.40 * (score_prediction e p gt).temp_accuracy
               + 0.25 * (score_prediction e p gt).precip_accuracy
               + 0.15 * (score_prediction e p gt).risk_accuracy
               + 0.10 * (score_prediction e p gt).latency_score
               + 0.10 * (score_prediction e p gt).consistency)))
    ∧ ((score_prediction e p gt).extreme_event_bonus = true
        ↔ 0.6 < p.risk_index.getD 0.5 ∧ gt.had_extreme_event.getD false = true) := by
  have key : ∀ (b : Bool) (f : ℚ), (if b then f * 1.5 else f) = (if b then (3/2 : ℚ) else 1) * f := by
    intro b f
    cases b
    · simp
    · show f * 1.5 = (3/2) * f
      norm_num
      ring
  constructor
  · unfold score_prediction
    dsimp only
    rw [key]
  · unfold score_prediction
    dsimp only
    simp [Bool.and_eq_true, decide_eq_true_eq]

/-- Challenge used for C4: Jakarta, monsoon-peak season, moderate
La-Nina ENSO state, no explicit seed. -/
def C4syn : Synapse :=
  { location := some "Jakarta, Indonesia"
    conditions := some { season := some "monsoon_peak", enso_state := some "la_nina_moderate" } }

/-- Modelled from the spec (§4.3 step 2: "Resolve baseline + season
modifier + ENSO modifier ...; compute `actual_*` reference values as
`ground_truth` field if present, else `baseline ± modifiers`"): reference
values that combine the baseline with BOTH the season modifier and the
ENSO modifier (temperature delta added, precipitation multipliers
applied, risk increases added). -/
def specActualRefs (synapse : Synapse) (ground_truth : GroundTruth) : ℚ × ℚ × ℚ :=
  let baseline := gmrBaseline synapse
  let season_impact := gmrSeasonImpact synapse
  let enso_impact := gmrEnsoImpact synapse
  ( ground_truth.actual_temp_celsius.getD (baseline.base_temp + season_impact.temp_delta),
    ground_truth.actual_precip_mm.getD
      (baseline.base_precip_mm * season_impact.precip_mult * enso_impact.precip_mult),
    ground_truth.actual_risk_index.getD
      (baseline.risk_baseline + season_impact.risk_increase + enso_impact.risk_increase) )

/-- C4 counterexample: with no ground-truth fields, for Jakarta in
monsoon peak under moderate La Nina the code's fallback precipitation
reference is `150 * 2.5 = 375` (season modifier only), not the
spec-prescribed `150 * 2.5 * 1.3 = 487.5` that would include the ENSO
multiplier — the ENSO modifier is resolved but never applied. -/
theorem C4_counterexample :
    actualRefs C4syn {} ≠ specActualRefs C4syn {}
    ∧ (actualRefs C4syn {}).2.1 = 375
    ∧ (specActualRefs C4syn {}).2.1 = 487.5 := by
  have h1 : (actualRefs C4syn {}).2.1 = 375 := by
    norm_num [actualRefs, C4syn, gmrBaseline, gmrSeasonImpact, CLIMATE_BASELINES,
      SEASON_IMPACTS]
  have h2 : (specActualRefs C4syn {}).2.1 = 487.5 := by
    norm_num [specActualRefs, C4syn, gmrBaseline, gmrSeasonImpact, gmrEnsoImpact,
      CLIMATE_BASELINES, SEASON_IMPACTS, ENSO_IMPACTS]
  refine ⟨fun h => ?_, h1, h2⟩
  have h3 := congrArg (fun t : ℚ × ℚ × ℚ => t.2.1) h
  dsimp only at h3
  rw [h1, h2] at h3
  exact absurd h3 (by norm_num)

/-- C4 amended: each `actual_*` reference value is the corresponding
ground-truth field when present, and otherwise comes from the baseline
combined with the SEASON modifier only; the ENSO modifier has no
influence on the reference values. -/
theorem C4_reference_resolution_amended (syn : Synapse) (gt : GroundTruth) :
    (actualRefs syn gt
      = (gt.actual_temp_celsius.getD
            ((gmrBaseline syn).base_temp + (gmrSeasonImpact syn).temp_delta),
         gt.actual_precip_mm.getD
            ((gmrBaseline syn).base_precip_mm * (gmrSeasonImpact syn).precip_mult),
         gt.actual_risk_index.getD
            ((gmrBaseline syn).risk_baseline + (gmrSeasonImpact syn).risk_increase)))
    ∧ ∀ (c : Conditions) (enso1 enso2 : Option String),
        actualRefs { syn with conditions := some { c with enso_state := enso1 } } gt
          = actualRefs { syn with conditions := some { c with enso_state := enso2 } } gt :=
  ⟨rfl, fun _ _ _ => rfl⟩

/-- C5 counterexample: `run_miner_prediction` on a challenge with NO
explicit `random_seed` is seeded from the current wall clock
(`int(time.time())`, ai.py 401), not from the stable hash of
location and date — the same challenge run at two different instants
(model inputs `now = 1` and `now = 2`) yields different outputs, so
identical (location, date) pairs do not reproduce the same sequence
across invocations on this path. -/
theorem C5_counterexample :
    run_miner_prediction zeroEnv { location := some "Jakarta, Indonesia" } "high" 1
      ≠ run_miner_prediction zeroEnv { location := some "Jakarta, Indonesia" } "high" 2 :=
  fun h => absurd (congrArg Prediction.data_sources h) (by decide)

/-- C5 amended: the stable-hash fallback holds on the oracle query path:
`_seed_from` is the first 8 hex digits of the md5 hexdigest of
`location:date` read as an integer, hence always below `2^32`, and
`get_climate_prediction` is a pure function of (location, date); on the
`run_miner_prediction` path the seed is the explicit `random_seed` when
present, but falls back to the current wall-clock time (not the hash)
when absent. -/
theorem C5_seed_derivation_amended :
    (∀ (m : String → String) (location date : String),
        _seed_from m location date < 2 ^ 32)
    ∧ (∀ (e : Env) (q q' : ClimateQuery), q.location = q'.location → q.date = q'.date →
        get_climate_prediction e q = get_climate_prediction e q')
    ∧ (∀ (syn : Synapse) (now s : ℤ), syn.random_seed = some s → rmpSeed syn now = s)
    ∧ (∀ (syn : Synapse) (now : ℤ), syn.random_seed = none → rmpSeed syn now = now) := by
  refine ⟨?_, ?_, ?_, ?_⟩
  · intro m location date
    have h := hexToNat_lt ((m (location ++ ":" ++ date)).toList.take 8)
    have hlen : ((m (location ++ ":" ++ date)).toList.take 8).length ≤ 8 := by
      rw [List.length_take]
      exact Nat.min_le_left _ _
    calc _seed_from m location date
        < 16 ^ ((m (location ++ ":" ++ date)).toList.take 8).length := h
      _ ≤ 16 ^ 8 := Nat.pow_le_pow_right (by norm_num) hlen
      _ ≤ 2 ^ 32 := by norm_num
  · intro e q q' h1 h2
    obtain ⟨l, d⟩ := q
    obtain ⟨l2, d2⟩ := q'
    dsimp only at h1 h2
    subst h1
    subst h2
    rfl
  · intro syn now s h
    simp [rmpSeed, h]
  · intro syn now h
    simp [rmpSeed, h]

/-- Witness for the amended C5 at concrete inputs. -/
theorem C5_witness :
    _seed_from (fun _ => "0123456789abcdef0123456789abcdef") "Jakarta, Indonesia" "2026-02-25"
        < 2 ^ 32
    ∧ get_climate_prediction zeroEnv ⟨"Jakarta, Indonesia", "2026-02-25"⟩
        = get_climate_prediction zeroEnv ⟨"Jakarta, Indonesia", "2026-02-25"⟩
    ∧ rmpSeed { random_seed := some 42001 } 7 = 42001
    ∧ rmpSeed {} 7 = 7 :=
  ⟨C5_seed_derivation_amended.1 _ "Jakarta, Indonesia" "2026-02-25",
   C5_seed_derivation_amended.2.1 zeroEnv _ _ rfl rfl,
   C5_seed_derivation_amended.2.2.1 _ 7 42001 rfl,
   C5_seed_derivation_amended.2.2.2 {} 7 rfl⟩

/-- C7 counterexample: with actual temperature 28, the prediction 28.0001
has a strictly positive temperature difference yet already receives
`temp_accuracy = 1` (the 4-decimal rounding of 0.99998), the same value
as the exact prediction 28 — so temp_accuracy does not strictly increase
when the difference strictly decreases to 0, and it saturates at 1.0 at a
nonzero difference, contradicting "exactly when the difference is 0". -/
theorem C7_counterexample :
    0 < |(280001/10000 : ℚ) - 28|
    ∧ (score_prediction zeroEnv { predicted_temp_celsius := some (280001/10000) }
          { actual_temp_celsius := some 28 }).temp_accuracy = 1
    ∧ (score_prediction zeroEnv { predicted_temp_celsius := some 28 }
          { actual_temp_celsius := some 28 }).temp_accuracy = 1 := by
  refine ⟨by norm_num, ?_, ?_⟩
  · unfold score_prediction
    dsimp only
    simp only [Option.getD_some]
    have harg : max (0 : ℚ) (1 - |(280001/10000 : ℚ) - 28| / 5) = 49999/50000 := by
      rw [show (280001/10000 : ℚ) - 28 = 1/10000 by norm_num,
        abs_of_nonneg (by norm_num : (0 : ℚ) ≤ 1/10000)]
      norm_num
    rw [harg, pround_eq 4 (49999/50000) 10000 (by norm_num) (by norm_num)]
    norm_num
  · unfold score_prediction
    dsimp only
    simp only [Option.getD_some, sub_self, abs_zero]
    rw [show max (0 : ℚ) (1 - 0 / 5) = 1 by norm_num, pround_one]

/-- C7 amended: holding everything else fixed, a smaller (or equal)
temperature difference never yields a smaller `temp_accuracy` (weak
monotonicity; strictness is destroyed by the 4-decimal rounding), the
accuracy equals 1 whenever the difference is 0 (saturation also occurs at
small nonzero differences), and `temp_accuracy` always stays within
`[0, 1]`. -/
theorem C7_temp_accuracy_amended :
    (∀ (e e' : Env) (p p' : PredDict) (gt : GroundTruth) (t t' a : ℚ),
        p.predicted_temp_celsius = some t → p'.predicted_temp_celsius = some t' →
        gt.actual_temp_celsius = some a → |t - a| ≤ |t' - a| →
        (score_prediction e' p' gt).temp_accuracy ≤ (score_prediction e p gt).temp_accuracy)
    ∧ (∀ (e : Env) (p : PredDict) (gt : GroundTruth) (t : ℚ),
        p.predicted_temp_celsius = some t → gt.actual_temp_celsius = some t →
        (score_prediction e p gt).temp_accuracy = 1)
    ∧ (∀ (e : Env) (p : PredDict) (gt : GroundTruth),
        0 ≤ (score_prediction e p gt).temp_accuracy
        ∧ (score_prediction e p gt).temp_accuracy ≤ 1) := by
  refine ⟨?_, ?_, ?_⟩
  · intro e e' p p' gt t t' a hp hp' hgt hle
    unfold score_prediction
    dsimp only
    rw [hp, hp', hgt]
    simp only [Option.getD_some]
    apply pround_mono
    apply max_le_max (le_refl (0 : ℚ))
    linarith
  · intro e p gt t hp hgt
    unfold score_prediction
    dsimp only
    rw [hp, hgt]
    simp only [Option.getD_some, sub_self, abs_zero]
    rw [show max (0 : ℚ) (1 - 0 / 5) = 1 by norm_num, pround_one]
  · intro e p gt
    constructor
    · exact pround_max0_nonneg 4 _
    · refine pround_le_grid' 4 10000 1 (by norm_num) (max_le (by norm_num) ?_)
      have h := abs_nonneg (p.predicted_temp_celsius.getD 28.0
        - gt.actual_temp_celsius.getD 28.0)
      linarith

/-- Witness for the amended C7 at concrete inputs. -/
theorem C7_witness :
    (score_prediction zeroEnv { predicted_temp_celsius := some 27 }
        { actual_temp_celsius := some 28 }).temp_accuracy
      ≤ (score_prediction zeroEnv { predicted_temp_celsius := some (57/2) }
        { actual_temp_celsius := some 28 }).temp_accuracy
    ∧ (score_prediction zeroEnv { predicted_temp_celsius := some 28 }
        { actual_temp_celsius := some 28 }).temp_accuracy = 1 :=
  ⟨C7_temp_accuracy_amended.1 zeroEnv zeroEnv _ _ _ (57/2) 27 28 rfl rfl rfl
     (by norm_num [abs_le]),
   C7_temp_accuracy_amended.2.1 zeroEnv _ _ 28 rfl rfl⟩

/-- C6: every prediction produced by the miner generators satisfies
`0 ≤ predicted_risk_index ≤ 1`, `predicted_precipitation ≥ 0`,
`10 ≤ predicted_humidity ≤ 100` and `predicted_wind ≥ 0`: for each
single-miner record of `_generate_miner_responses`, for the legacy
`run_miner_prediction` path, and for every member of a full
`_generate_miner_responses` batch. -/
theorem C6_prediction_range_invariants :
    (∀ (e : Env) (seed : ℤ) (refs : ℚ × ℚ × ℚ) (b : Baseline) (an : List String)
        (i : ℕ) (m : MinerSpec),
        0 ≤ (minerResponse e seed refs b an i m).predicted_risk_index
        ∧ (minerResponse e seed refs b an i m).predicted_risk_index ≤ 1
        ∧ 0 ≤ (minerResponse e seed refs b an i m).predicted_precip_mm
        ∧ 10 ≤ (minerResponse e seed refs b an i m).predicted_humidity_pct
        ∧ (minerResponse e seed refs b an i m).predicted_humidity_pct ≤ 100
        ∧ 0 ≤ (minerResponse e seed refs b an i m).predicted_wind_kmh)
    ∧ (∀ (e : Env) (syn : Synapse) (tier : String) (now : ℤ),
        0 ≤ (run_miner_prediction e syn tier now).risk_index
        ∧ (run_miner_prediction e syn tier now).risk_index ≤ 1
        ∧ 0 ≤ (run_miner_prediction e syn tier now).predicted_precip_mm
        ∧ 10 ≤ (run_miner_prediction e syn tier now).predicted_humidity_pct
        ∧ (run_miner_prediction e syn tier now).predicted_humidity_pct ≤ 100
        ∧ 0 ≤ (run_miner_prediction e syn tier now).predicted_wind_kmh)
    ∧ (∀ (e : Env) (t : String) (syn : Synapse) (gt : GroundTruth) (n : ℕ)
        (resp : MinerResp), resp ∈ _generate_miner_responses e t syn gt n →
        0 ≤ resp.predicted_risk_index ∧ resp.predicted_risk_index ≤ 1
        ∧ 0 ≤ resp.predicted_precip_mm
        ∧ 10 ≤ resp.predicted_humidity_pct ∧ resp.predicted_humidity_pct ≤ 100
        ∧ 0 ≤ resp.predicted_wind_kmh) := by
  have hminer : ∀ (e : Env) (seed : ℤ) (refs : ℚ × ℚ × ℚ) (b : Baseline)
      (an : List String) (i : ℕ) (m : MinerSpec),
      0 ≤ (minerResponse e seed refs b an i m).predicted_risk_index
      ∧ (minerResponse e seed refs b an i m).predicted_risk_index ≤ 1
      ∧ 0 ≤ (minerResponse e seed refs b an i m).predicted_precip_mm
      ∧ 10 ≤ (minerResponse e seed refs b an i m).predicted_humidity_pct
      ∧ (minerResponse e seed refs b an i m).predicted_humidity_pct ≤ 100
      ∧ 0 ≤ (minerResponse e seed refs b an i m).predicted_wind_kmh := by
    intro e seed refs b an i m
    exact ⟨(pround_clamp01 _).1, (pround_clamp01 _).2, pround_max0_nonneg _ _,
      (pround_humidity_bounds _).1, (pround_humidity_bounds _).2, pround_max0_nonneg _ _⟩
  refine ⟨hminer, ?_, ?_⟩
  · intro e syn tier now
    exact ⟨(pround_clamp01 _).1, (pround_clamp01 _).2, pround_max0_nonneg _ _,
      (pround_humidity_bounds _).1, (pround_humidity_bounds _).2, pround_max0_nonneg _ _⟩
  · intro e t syn gt n resp hmem
    simp only [_generate_miner_responses] at hmem
    obtain ⟨m2, hm2, r, rfl⟩ := mem_assignRanks _ _ hmem
    have hm3 := (sortBy_perm (fun a b : MinerResp => decide (b.score ≤ a.score)) _).subset hm2
    obtain ⟨p, hp, rfl⟩ := List.mem_map.mp hm3
    exact hminer e (syn.random_seed.getD 42) (actualRefs syn gt) (gmrBaseline syn)
      (SPECIALISTS t).analyses p.1 p.2

/-- Witness for the batch clause of C6 at a concrete member of a
generated batch. -/
theorem C6_witness :
    0 ≤ ((_generate_miner_responses zeroEnv "short_term_forecast" {} {} 6).get
        ⟨0, by rw [gmr_length]; norm_num⟩).predicted_risk_index := by
  have h : (0 : ℕ)
      < (_generate_miner_responses zeroEnv "short_term_forecast" {} {} 6).length := by
    rw [gmr_length]
    norm_num
  exact (C6_prediction_range_invariants.2.2 zeroEnv "short_term_forecast" {} {} 6 _
    (List.get_mem _ 0 h)).1

/-! ## Further helper lemmas (top-miner bounds, payout arithmetic) -/

theorem run_demo_scenario_eq (e : Env) (key : String) (sc : Scenario)
    (hks : DEMO_SCENARIOS key = some sc) (bn tp : ℕ) (ts : String) :
    run_demo_scenario e key bn tp ts = .ok (demoResultOf e key sc bn tp ts) := by
  unfold run_demo_scenario
  rw [hks]

theorem assignRanks_mem_of_mem {m : MinerResp} :
    ∀ (k : ℕ) (l : List MinerResp), m ∈ l → ∃ r, { m with rank := r } ∈ assignRanks k l := by
  intro k l
  induction l generalizing k with
  | nil => simp
  | cons x xs ih =>
    intro h
    rcases List.mem_cons.mp h with h | h
    · subst h
      exact ⟨k, List.mem_cons_self _ _⟩
    · rcases ih (k + 1) h with ⟨r, hr⟩
      exact ⟨r, List.mem_cons_of_mem _ hr⟩

theorem minerResponse_top_bounds (e : Env) (hu : e.unitDraws) (seed : ℤ)
    (refs : ℚ × ℚ × ℚ) (b : Baseline) (an : List String) (m : MinerSpec) :
    0.93 ≤ (minerResponse e seed refs b an 0 m).score
    ∧ (minerResponse e seed refs b an 0 m).score ≤ 0.99
    ∧ 0.2 ≤ (minerResponse e seed refs b an 0 m).response_time_s
    ∧ (minerResponse e seed refs b an 0 m).response_time_s ≤ 0.6 := by
  have hscore : (minerResponse e seed refs b an 0 m).score
      = pround 4 (0.93 + (0.99 - 0.93) * e.u (seed + (0 : ℕ) * 7) 5) := by
    simp [minerResponse]
  have hrt : (minerResponse e seed refs b an 0 m).response_time_s
      = pround 2 (0.2 + (0.6 - 0.2) * e.u (seed + (0 : ℕ) * 7) 6) := by
    simp [minerResponse]
  obtain ⟨hu1, hu2⟩ := hu (seed + (0 : ℕ) * 7) 5
  obtain ⟨hv1, hv2⟩ := hu (seed + (0 : ℕ) * 7) 6
  have hs1 : (0 : ℚ) ≤ (0.99 - 0.93) * e.u (seed + (0 : ℕ) * 7) 5 :=
    mul_nonneg (by norm_num) hu1
  have hs2 : (0.99 - 0.93) * e.u (seed + (0 : ℕ) * 7) 5 ≤ (0.99 - 0.93) * 1 :=
    mul_le_mul_of_nonneg_left (le_of_lt hu2) (by norm_num)
  have ht1 : (0 : ℚ) ≤ (0.6 - 0.2) * e.u (seed + (0 : ℕ) * 7) 6 :=
    mul_nonneg (by norm_num) hv1
  have ht2 : (0.6 - 0.2) * e.u (seed + (0 : ℕ) * 7) 6 ≤ (0.6 - 0.2) * 1 :=
    mul_le_mul_of_nonneg_left (le_of_lt hv2) (by norm_num)
  refine ⟨?_, ?_, ?_, ?_⟩
  · rw [hscore]
    exact grid_le_pround' 4 9300 0.93 (by norm_num) (by linarith)
  · rw [hscore]
    exact pround_le_grid' 4 9900 0.99 (by norm_num) (by linarith)
  · rw [hrt]
    exact grid_le_pround' 2 20 0.2 (by norm_num) (by linarith)
  · rw [hrt]
    exact pround_le_grid' 2 60 0.6 (by norm_num) (by linarith)

theorem minerResponse_score_lb (e : Env) (hu : e.unitDraws) (seed : ℤ)
    (refs : ℚ × ℚ × ℚ) (b : Baseline) (an : List String) (i : ℕ) (m : MinerSpec) :
    0.4 ≤ (minerResponse e seed refs b an i m).score := by
  by_cases hi : i = 0
  · subst hi
    have h := (minerResponse_top_bounds e hu seed refs b an m).1
    linarith
  · have hscore : (minerResponse e seed refs b an i m).score
        = (tierDraws e (seed + (i : ℤ) * 7) m.tier).2.2.2.1 := by
      simp [minerResponse, hi]
    rw [hscore]
    obtain ⟨hu1, hu2⟩ := hu (seed + (i : ℤ) * 7) 3
    have h1 : (0 : ℚ) ≤ (0.97 - 0.82) * e.u (seed + (i : ℤ) * 7) 3 :=
      mul_nonneg (by norm_num) hu1
    have h2 : (0 : ℚ) ≤ (0.82 - 0.62) * e.u (seed + (i : ℤ) * 7) 3 :=
      mul_nonneg (by norm_num) hu1
    have h3 : (0 : ℚ) ≤ (0.62 - 0.40) * e.u (seed + (i : ℤ) * 7) 3 :=
      mul_nonneg (by norm_num) hu1
    unfold tierDraws
    split_ifs <;> dsimp only
    · exact grid_le_pround' 4 4000 0.4 (by norm_num) (by linarith)
    · exact grid_le_pround' 4 4000 0.4 (by norm_num) (by linarith)
    · exact grid_le_pround' 4 4000 0.4 (by norm_num) (by linarith)

theorem gmr_mem_score_lb (e : Env) (hu : e.unitDraws) (t : String) (syn : Synapse)
    (gt : GroundTruth) (n : ℕ) :
    ∀ resp ∈ _generate_miner_responses e t syn gt n, (0.4 : ℚ) ≤ resp.score := by
  intro resp hmem
  simp only [_generate_miner_responses] at hmem
  obtain ⟨m2, hm2, r, rfl⟩ := mem_assignRanks _ _ hmem
  have hm3 := (sortBy_perm (fun a b : MinerResp => decide (b.score ≤ a.score)) _).subset hm2
  obtain ⟨p, hp, rfl⟩ := List.mem_map.mp hm3
  exact minerResponse_score_lb e hu (syn.random_seed.getD 42) (actualRefs syn gt)
    (gmrBaseline syn) (SPECIALISTS t).analyses p.1 p.2

theorem gmr_scores_sum_pos (e : Env) (hu : e.unitDraws) (t : String) (syn : Synapse)
    (gt : GroundTruth) :
    0 < ((_generate_miner_responses e t syn gt 6).map MinerResp.score).sum := by
  have hlen : ((_generate_miner_responses e t syn gt 6).map MinerResp.score).length = 6 := by
    rw [List.length_map, gmr_length]
  apply List.sum_pos
  · intro x hx
    obtain ⟨resp, hresp, rfl⟩ := List.mem_map.mp hx
    have := gmr_mem_score_lb e hu t syn gt 6 resp hresp
    linarith
  · intro h
    rw [h] at hlen
    simp at hlen

theorem map_proj_tao_update {α : Type} (f : MinerResp → α) (g : MinerResp → ℚ)
    (hf : ∀ (m : MinerResp) (q : ℚ), f { m with tao_earned := q } = f m)
    (l : List MinerResp) :
    (l.map (fun m => { m with tao_earned := g m })).map f = l.map f := by
  induction l with
  | nil => rfl
  | cons x xs ih => simp only [List.map_cons, hf, ih]

/-- Rounded proportional payouts: total within half an ulp of the
6-decimal grid per miner. -/
theorem payout_bounds (P T : ℚ) (l : List ℚ) (hT : l.sum = T) (hpos : 0 < T) :
    |(l.map (fun s => pround 6 (P * 0.41 * (s / T)))).sum - 0.41 * P|
      ≤ l.length * (1 / 2000000) := by
  have h1 := abs_sum_map_pround_sub 6 (fun s => P * 0.41 * (s / T)) l
  have h2 : (l.map (fun s => P * 0.41 * (s / T))).sum = 0.41 * P := by
    rw [sum_map_mul_div (P * 0.41) T l, hT, div_self (ne_of_gt hpos)]
    ring
  rw [h2] at h1
  calc |(l.map (fun s => pround 6 (P * 0.41 * (s / T)))).sum - 0.41 * P|
      ≤ l.length * (1 / (2 * 10 ^ 6)) := h1
    _ = l.length * (1 / 2000000) := by norm_num

/-- C1: `_generate_miner_responses` is a pure function of its inputs (two
calls on equal arguments yield identical output lists); the miner at
0-indexed position `i` of the selected pool reads only the random stream
of the generator seeded `seed + i * 7` (so its record is unchanged under
any modification of the environment away from that seed); and distinct
positions use distinct seeds, so no two miners in one batch share a
random stream. -/
theorem C1_determinism_and_seed_streams :
    (∀ (e : Env) (t t' : String) (syn syn' : Synapse) (gt gt' : GroundTruth) (n n' : ℕ),
        t = t' → syn = syn' → gt = gt' → n = n' →
        _generate_miner_responses e t syn gt n = _generate_miner_responses e t' syn' gt' n')
    ∧ (∀ (e e' : Env) (seed : ℤ) (refs : ℚ × ℚ × ℚ) (b : Baseline) (an : List String)
        (i : ℕ) (m : MinerSpec),
        (∀ k, e.u (seed + (i : ℤ) * 7) k = e'.u (seed + (i : ℤ) * 7) k) →
        (∀ k, e.g (seed + (i : ℤ) * 7) k = e'.g (seed + (i : ℤ) * 7) k) →
        e.md5hex = e'.md5hex →
        minerResponse e seed refs b an i m = minerResponse e' seed refs b an i m)
    ∧ (∀ (seed : ℤ) (i j : ℕ), i ≠ j → seed + (i : ℤ) * 7 ≠ seed + (j : ℤ) * 7) := by
  refine ⟨?_, ?_, ?_⟩
  · intro e t t' syn syn' gt gt' n n' h1 h2 h3 h4
    subst h1
    subst h2
    subst h3
    subst h4
    rfl
  · intro e e' seed refs b an i m hU hG hM
    simp only [minerResponse, tierDraws, hU, hG, hM]
  · intro seed i j hij h
    exact hij (by omega)

/-- Witness for C1 at concrete inputs. -/
theorem C1_witness :
    _generate_miner_responses zeroEnv "short_term_forecast" {} {} 6
        = _generate_miner_responses zeroEnv "short_term_forecast" {} {} 6
    ∧ minerResponse zeroEnv 42001 (0, 0, 0) ⟨25.0, 100.0, 70.0, 15.0, 0.25⟩ [] 0
          ⟨"PanguWeather-v3", "5FPWv3kQr", "high", "s"⟩
        = minerResponse zeroEnv 42001 (0, 0, 0) ⟨25.0, 100.0, 70.0, 15.0, 0.25⟩ [] 0
          ⟨"PanguWeather-v3", "5FPWv3kQr", "high", "s"⟩
    ∧ (5 : ℤ) + ((0 : ℕ) : ℤ) * 7 ≠ (5 : ℤ) + ((1 : ℕ) : ℤ) * 7 :=
  ⟨C1_determinism_and_seed_streams.1 zeroEnv _ _ _ _ _ _ _ _ rfl rfl rfl rfl,
   C1_determinism_and_seed_streams.2.1 zeroEnv zeroEnv 42001 _ _ _ 0 _
     (fun _ => rfl) (fun _ => rfl) rfl,
   C1_determinism_and_seed_streams.2.2 5 0 1 (by norm_num)⟩

/-- C3 counterexample: the flat 1e-6 conservation tolerance fails — for
three miners with final scores 1, 1, 1 and a pool of 1.0000002 tao, each
rounded share is 0.333333 and the allocated total 0.999999 differs from
the pool by 1.2e-6. -/
theorem C3_counterexample :
    1/1000000 < |(assignTauEarned (10000002/10000000) [1, 1, 1]).sum - 10000002/10000000| := by
  have hsort : sortBy (fun a b : ℚ => decide (b ≤ a)) [1, 1, 1] = [1, 1, 1] := by
    simp [sortBy, insertBy]
  have hpr : pround 6 ((10000002/10000000 : ℚ) * (1 / (1 + (1 + (1 + 0)))))
      = 333333/1000000 := by
    rw [show (10000002/10000000 : ℚ) * (1 / (1 + (1 + (1 + 0)))) = 1666667/5000000 by norm_num]
    rw [pround_eq 6 (1666667/5000000) 333333 (by norm_num) (by norm_num)]
    norm_num
  simp only [assignTauEarned, hsort, List.sum_cons, List.sum_nil, List.map_cons,
    List.map_nil, tauForScore]
  rw [if_pos (by norm_num : (1 + (1 + (1 + 0)) : ℚ) > 0)]
  rw [hpr]
  rw [show (333333/1000000 + (333333/1000000 + (333333/1000000 + 0)) : ℚ)
      - 10000002/10000000 = -(12/10000000) by norm_num]
  rw [abs_neg, abs_of_nonneg (by norm_num : (0 : ℚ) ≤ 12/10000000)]
  norm_num

/-- C3 amended: each miner's reward is the 6-decimal rounding of
`pool * (score / Σ scores)` (order: the stable descending sort of the
scores), every reward is 0 when the total score is 0 and no division is
performed then, and for a positive total the allocated rewards sum to the
pool within `n * 5e-7` (half an ulp of the 6-decimal rounding per miner,
`n` = number of miners) — the flat 1e-6 tolerance of the original claim
is what the counterexample refutes. -/
theorem C3_reward_allocation_amended (pool : ℚ) (scores : List ℚ) :
    (scores.sum = 0 → ∀ r ∈ assignTauEarned pool scores, r = 0)
    ∧ assignTauEarned pool scores
        = (sortBy (fun a b : ℚ => decide (b ≤ a)) scores).map
            (fun s => if 0 < scores.sum then pround 6 (pool * (s / scores.sum)) else 0)
    ∧ (0 < scores.sum →
        |(assignTauEarned pool scores).sum - pool|
          ≤ scores.length * (1 / 2000000)) := by
  have hperm := sortBy_perm (fun a b : ℚ => decide (b ≤ a)) scores
  have hsum : (sortBy (fun a b : ℚ => decide (b ≤ a)) scores).sum = scores.sum :=
    hperm.sum_eq
  refine ⟨?_, ?_, ?_⟩
  · intro h0 r hr
    simp only [assignTauEarned] at hr
    obtain ⟨s, hs, rfl⟩ := List.mem_map.mp hr
    simp [tauForScore, hsum, h0]
  · simp only [assignTauEarned, hsum]
    rfl
  · intro hpos
    have hfun : (sortBy (fun a b : ℚ => decide (b ≤ a)) scores).map
          (tauForScore pool (sortBy (fun a b : ℚ => decide (b ≤ a)) scores).sum)
        = (sortBy (fun a b : ℚ => decide (b ≤ a)) scores).map
            (fun s => pround 6 (pool * (s / scores.sum))) := by
      apply List.map_congr_left
      intro s hs
      simp only [tauForScore, hsum]
      rw [if_pos hpos]
    have herr := abs_sum_map_pround_sub 6 (fun s => pool * (s / scores.sum))
      (sortBy (fun a b : ℚ => decide (b ≤ a)) scores)
    have hsum2 : ((sortBy (fun a b : ℚ => decide (b ≤ a)) scores).map
          (fun s => pool * (s / scores.sum))).sum = pool := by
      rw [sum_map_mul_div pool scores.sum, hsum, div_self (ne_of_gt hpos), mul_one]
    rw [hsum2] at herr
    have hlen : (sortBy (fun a b : ℚ => decide (b ≤ a)) scores).length = scores.length :=
      hperm.length_eq
    simp only [assignTauEarned]
    rw [hfun]
    calc |((sortBy (fun a b : ℚ => decide (b ≤ a)) scores).map
          (fun s => pround 6 (pool * (s / scores.sum)))).sum - pool|
        ≤ (sortBy (fun a b : ℚ => decide (b ≤ a)) scores).length * (1 / (2 * 10 ^ 6)) :=
          herr
      _ = scores.length * (1 / 2000000) := by rw [hlen]; norm_num

/-- Witness for the amended C3 at concrete inputs. -/
theorem C3_witness :
    |(assignTauEarned 1 [1]).sum - 1| ≤ (([1] : List ℚ).length : ℚ) * (1 / 2000000)
    ∧ ∀ r ∈ assignTauEarned 1 ([] : List ℚ), r = 0 :=
  ⟨(C3_reward_allocation_amended 1 [1]).2.2 (by norm_num),
   (C3_reward_allocation_amended 1 []).1 rfl⟩

/-- Properties of the miner list of a demo run whose scenario uses the
`short_term_forecast` pool: 6 miners selected from that pool, the
pool-position-0 miner present with `uid = 1` and an overridden score of
at least 0.93, and ranks reassigned densely as 1..6. -/
theorem demoMiners_props (e : Env) (hu : e.unitDraws) (sc : Scenario)
    (htask : sc.task_type = "short_term_forecast") :
    (demoMiners e sc).length = 6
    ∧ List.Perm ((demoMiners e sc).map MinerResp.name)
        (short_term_forecast_pool.miners.map MinerSpec.name)
    ∧ (∃ mr ∈ demoMiners e sc, mr.uid = 1 ∧ 0.93 ≤ mr.score)
    ∧ (demoMiners e sc).map MinerResp.rank = [1, 2, 3, 4, 5, 6] := by
  obtain ⟨ti, su, tt, syn, gt⟩ := sc
  dsimp only at htask
  subst htask
  refine ⟨?_, ?_, ?_, ?_⟩
  · simp only [demoMiners]
    rw [List.length_map, gmr_length]
  · have h1 : (demoMiners e ⟨ti, su, "short_term_forecast", syn, gt⟩).map MinerResp.name
        = (_generate_miner_responses e "short_term_forecast" syn gt 6).map MinerResp.name := by
      simp only [demoMiners]
      exact map_proj_tao_update MinerResp.name _ (fun _ _ => rfl) _
    rw [h1]
    simp only [_generate_miner_responses]
    rw [assignRanks_map_proj MinerResp.name (fun _ _ => rfl)]
    have hp := (sortBy_perm (fun a b : MinerResp => decide (b.score ≤ a.score))
      (((SPECIALISTS "short_term_forecast").miners.take
          (min 6 (SPECIALISTS "short_term_forecast").miners.length)).enum.map
        (fun p => minerResponse e (syn.random_seed.getD 42) (actualRefs syn gt)
          (gmrBaseline syn) (SPECIALISTS "short_term_forecast").analyses p.1 p.2))).map
      MinerResp.name
    have hnames : ((((SPECIALISTS "short_term_forecast").miners.take
          (min 6 (SPECIALISTS "short_term_forecast").miners.length)).enum.map
        (fun p => minerResponse e (syn.random_seed.getD 42) (actualRefs syn gt)
          (gmrBaseline syn) (SPECIALISTS "short_term_forecast").analyses p.1 p.2)).map
        MinerResp.name)
        = short_term_forecast_pool.miners.map MinerSpec.name := rfl
    rw [hnames] at hp
    exact hp
  · have hpangu : ((0 : ℕ), (⟨"PanguWeather-v3", "5FPWv3kQr", "high",
        "Pangu-Weather Transformer (3D Earth System)"⟩ : MinerSpec))
        ∈ ((SPECIALISTS "short_term_forecast").miners.take
            (min 6 (SPECIALISTS "short_term_forecast").miners.length)).enum := by
      decide
    have hm0 := List.mem_map_of_mem
      (fun p : ℕ × MinerSpec => minerResponse e (syn.random_seed.getD 42) (actualRefs syn gt)
        (gmrBaseline syn) (SPECIALISTS "short_term_forecast").analyses p.1 p.2) hpangu
    have hm1 := (sortBy_perm (fun a b : MinerResp => decide (b.score ≤ a.score)) _).mem_iff.mpr hm0
    obtain ⟨r, hr⟩ := assignRanks_mem_of_mem 1 _ hm1
    simp only [demoMiners, _generate_miner_responses]
    refine ⟨_, List.mem_map_of_mem _ hr, rfl, ?_⟩
    exact (minerResponse_top_bounds e hu (syn.random_seed.getD 42) (actualRefs syn gt)
      (gmrBaseline syn) (SPECIALISTS "short_term_forecast").analyses
      ⟨"PanguWeather-v3", "5FPWv3kQr", "high",
        "Pangu-Weather Transformer (3D Earth System)"⟩).1
  · have h1 : (demoMiners e ⟨ti, su, "short_term_forecast", syn, gt⟩).map MinerResp.rank
        = (_generate_miner_responses e "short_term_forecast" syn gt 6).map MinerResp.rank := by
      simp only [demoMiners]
      exact map_proj_tao_update MinerResp.rank _ (fun _ _ => rfl) _
    rw [h1]
    simp only [_generate_miner_responses]
    rw [assignRanks_map_rank]
    rw [sortBy_length]
    rfl

/-- C8: the miner at position 0 of the specialist pool always receives
the privileged override — score in `[0.93, 0.99]` and response time in
`[0.2, 0.6]` — regardless of its nominal tier; and for demo scenario
`demo1` exactly 6 miners are selected from the `short_term_forecast`
pool, the position-0 miner (uid 1) has score at least 0.93, and the
assigned ranks are exactly 1..6. -/
theorem C8_top_miner_override :
    (∀ (e : Env), e.unitDraws → ∀ (seed : ℤ) (refs : ℚ × ℚ × ℚ) (b : Baseline)
        (an : List String) (m : MinerSpec),
        0.93 ≤ (minerResponse e seed refs b an 0 m).score
        ∧ (minerResponse e seed refs b an 0 m).score ≤ 0.99
        ∧ 0.2 ≤ (minerResponse e seed refs b an 0 m).response_time_s
        ∧ (minerResponse e seed refs b an 0 m).response_time_s ≤ 0.6)
    ∧ (∀ (e : Env), e.unitDraws → ∀ (bn tp : ℕ) (ts : String) (r : DemoResult),
        run_demo_scenario e "demo1" bn tp ts = .ok r →
        r.miner_responses.length = 6
        ∧ List.Perm (r.miner_responses.map MinerResp.name)
            (short_term_forecast_pool.miners.map MinerSpec.name)
        ∧ (∃ mr ∈ r.miner_responses, mr.uid = 1 ∧ 0.93 ≤ mr.score)
        ∧ r.miner_responses.map MinerResp.rank = [1, 2, 3, 4, 5, 6]) := by
  constructor
  · intro e hu seed refs b an m
    exact minerResponse_top_bounds e hu seed refs b an m
  · intro e hu bn tp ts r hok
    have heq := run_demo_scenario_eq e "demo1" _ rfl bn tp ts
    rw [heq] at hok
    obtain rfl := Except.ok.inj hok
    exact demoMiners_props e hu _ rfl

/-- Witness for C8 at the zero environment. -/
theorem C8_witness :
    (run_demo_scenario zeroEnv "demo1" 0 0 "ts").toOption.elim False
      (fun r => r.miner_responses.length = 6
        ∧ r.miner_responses.map MinerResp.rank = [1, 2, 3, 4, 5, 6])
    ∧ 0.93 ≤ (minerResponse zeroEnv 42001 (29.4, 185.0, 0.72)
        ⟨28.5, 150.0, 82.0, 15.0, 0.35⟩ [] 0
        ⟨"PanguWeather-v3", "5FPWv3kQr", "high", "s"⟩).score := by
  constructor
  · have heq := run_demo_scenario_eq zeroEnv "demo1" _ rfl 0 0 "ts"
    have h := C8_top_miner_override.2 zeroEnv zeroEnv_unitDraws 0 0 "ts" _ heq
    rw [heq]
    simp only [Except.toOption, Option.elim]
    exact ⟨h.1, h.2.2.2⟩
  · exact (C8_top_miner_override.1 zeroEnv zeroEnv_unitDraws 42001 _ _ _ _).1

/-- The per-run total score of a demo result is positive whenever the
unit draws are genuine probabilities (every generated score is at least
0.4 and six miners respond). -/
theorem demoMiners_scores_sum_pos (e : Env) (hu : e.unitDraws) (sc : Scenario) :
    0 < ((demoMiners e sc).map MinerResp.score).sum := by
  have h1 : (demoMiners e sc).map MinerResp.score
      = (_generate_miner_responses e sc.task_type sc.synapse sc.ground_truth 6).map
          MinerResp.score := by
    simp only [demoMiners]
    exact map_proj_tao_update MinerResp.score _ (fun _ _ => rfl) _
  rw [h1]
  exact gmr_scores_sum_pos e hu sc.task_type sc.synapse sc.ground_truth

/-- C10 (implicit): in a successful demo run with a positive total
score, the sum of all miners' `tao_earned` equals `0.41` times the
reported `tao_reward_pool` within per-miner 1e-6 rounding, and is in
particular strictly less than the reported pool — only the 41% miner
share of the advertised pool is ever distributed. -/
theorem C10_payout_is_41_percent_of_pool (e : Env) (hu : e.unitDraws) (key : String)
    (bn tp : ℕ) (ts : String) (r : DemoResult)
    (hok : run_demo_scenario e key bn tp ts = .ok r)
    (hpos : 0 < (r.miner_responses.map MinerResp.score).sum) :
    |(r.miner_responses.map MinerResp.tao_earned).sum - 0.41 * r.tao_reward_pool|
        ≤ (r.miner_responses.length : ℚ) * (1 / 1000000)
    ∧ (r.miner_responses.map MinerResp.tao_earned).sum < r.tao_reward_pool := by
  rcases hDS : DEMO_SCENARIOS key with _ | sc
  · unfold run_demo_scenario at hok
    rw [hDS] at hok
    exact absurd hok (by simp)
  · have heq := run_demo_scenario_eq e key sc hDS bn tp ts
    rw [heq] at hok
    obtain rfl := Except.ok.inj hok
    have hmrr : (demoResultOf e key sc bn tp ts).miner_responses = demoMiners e sc := rfl
    have hpoolr : (demoResultOf e key sc bn tp ts).tao_reward_pool
        = pround 4 (0.08 + (0.42 - 0.08) * e.u 42 0) := rfl
    rw [hmrr] at hpos ⊢
    rw [hpoolr]
    have hscores : (demoMiners e sc).map MinerResp.score
        = (_generate_miner_responses e sc.task_type sc.synapse sc.ground_truth 6).map
            MinerResp.score := by
      simp only [demoMiners]
      exact map_proj_tao_update MinerResp.score _ (fun _ _ => rfl) _
    rw [hscores] at hpos
    have key1 : (demoMiners e sc).map MinerResp.tao_earned
        = ((_generate_miner_responses e sc.task_type sc.synapse sc.ground_truth 6).map
            MinerResp.score).map
            (fun s => pround 6 (pround 4 (0.08 + (0.42 - 0.08) * e.u 42 0) * 0.41
              * (s / ((_generate_miner_responses e sc.task_type sc.synapse
                  sc.ground_truth 6).map MinerResp.score).sum))) := by
      simp only [demoMiners]
      rw [List.map_map, List.map_map]
      apply List.map_congr_left
      intro m hm
      simp only [Function.comp]
      rw [if_pos hpos]
    rw [key1]
    have hbound := payout_bounds (pround 4 (0.08 + (0.42 - 0.08) * e.u 42 0))
      (((_generate_miner_responses e sc.task_type sc.synapse sc.ground_truth 6).map
        MinerResp.score).sum)
      ((_generate_miner_responses e sc.task_type sc.synapse sc.ground_truth 6).map
        MinerResp.score) rfl hpos
    have hlen : ((_generate_miner_responses e sc.task_type sc.synapse
        sc.ground_truth 6).map MinerResp.score).length = 6 := by
      rw [List.length_map, gmr_length]
    have hlenD : (demoMiners e sc).length = 6 := by
      simp only [demoMiners]
      rw [List.length_map, gmr_length]
    rw [hlen] at hbound
    have hP : (0.08 : ℚ) ≤ pround 4 (0.08 + (0.42 - 0.08) * e.u 42 0) := by
      have h1 : (0 : ℚ) ≤ (0.42 - 0.08) * e.u 42 0 := mul_nonneg (by norm_num) (hu 42 0).1
      exact grid_le_pround' 4 800 0.08 (by norm_num) (by linarith)
    obtain ⟨habs1, habs2⟩ := abs_le.mp hbound
    constructor
    · rw [hlenD]
      calc |(((_generate_miner_responses e sc.task_type sc.synapse sc.ground_truth 6).map
            MinerResp.score).map
            (fun s => pround 6 (pround 4 (0.08 + (0.42 - 0.08) * e.u 42 0) * 0.41
              * (s / ((_generate_miner_responses e sc.task_type sc.synapse
                  sc.ground_truth 6).map MinerResp.score).sum)))).sum
            - 0.41 * pround 4 (0.08 + (0.42 - 0.08) * e.u 42 0)|
          ≤ (6 : ℕ) * (1 / 2000000) := hbound
        _ ≤ ((6 : ℕ) : ℚ) * (1 / 1000000) := by norm_num
    · linarith

/-- Witness for C10: the zero environment running `demo1`, with the
hypotheses discharged through `zeroEnv_unitDraws` and the score-sum
positivity of the generated batch. -/
theorem C10_witness :
    (run_demo_scenario zeroEnv "demo1" 0 0 "ts").toOption.elim False
      (fun r => |(r.miner_responses.map MinerResp.tao_earned).sum - 0.41 * r.tao_reward_pool|
          ≤ (r.miner_responses.length : ℚ) * (1 / 1000000)
        ∧ (r.miner_responses.map MinerResp.tao_earned).sum < r.tao_reward_pool) := by
  obtain ⟨sc, hDS⟩ : ∃ sc, DEMO_SCENARIOS "demo1" = some sc := ⟨_, rfl⟩
  have heq := run_demo_scenario_eq zeroEnv "demo1" sc hDS 0 0 "ts"
  have hpos : 0 < (((demoResultOf zeroEnv "demo1" sc 0 0 "ts").miner_responses).map
      MinerResp.score).sum :=
    demoMiners_scores_sum_pos zeroEnv zeroEnv_unitDraws sc
  have h := C10_payout_is_41_percent_of_pool zeroEnv zeroEnv_unitDraws "demo1" 0 0 "ts"
    _ heq hpos
  rw [heq]
  simp only [Except.toOption, Option.elim]
  exact h
